import Mathlib

/-!
A shallow embedding of the mapast package (tree.go and the comment
classifier) and proofs about its tag model, address function, unparsing
engine and comment classifier.

Modelling conventions, justified by Go semantics:
* A stored record is a Go byte slice.  `Val.str s` is a raw-text record
  (a separately allocated byte slice holding the text `s`); `Val.node f l c`
  is a record carved from the shared family buffer `f` with logical length
  `l` and capacity `c`.  Go distinguishes a `nil` slice from a missing map
  key only through the comma-ok form, so a store maps an address to
  `Option (Option Val)`: `none` is an absent key, `some none` a present key
  bound to the nil slice.
* `&node[0]` (used by `Which` and `Code` for category dispatch) is the
  identity of the first byte.  Records carved from distinct family buffers
  (or from distinct offsets 0,16,32,48,64,80 of the shared storage array)
  have distinct first-byte addresses, and raw-text records are separate
  allocations, so first-byte identity is exactly the `Fam` tag of a
  `Val.node` and no tag for a `Val.str`.  Indexing `[0]` of a nil or empty
  slice panics.
* Go `uint64` arithmetic is `Nat` arithmetic modulo `W = 2^64`; conversion
  to `int` (64-bit) is two's complement, modelled on `Int`.
* The `print` callback prints a string; the callback `Printer` renders the
  empty string as a newline.  The engine's emissions are collected in order
  in a `List String`.
-/

/-- 2^64, the modulus of Go uint64 arithmetic. -/
def W : Nat := 18446744073709551616

/-- The constant `uint64big = ^uint64(0) - 1` from `Code`. -/
def uint64big : Nat := W - 2

/-- Go conversion of a uint64 value (a Nat < 2^64) to a 64-bit int. -/
def intOfU64 (u : Nat) : Int :=
  if u < 9223372036854775808 then (u : Int) else (u : Int) - (W : Int)

/-- Go conversion of an int to a byte (low 8 bits, two's complement). -/
def byteOfInt (i : Int) : Nat := (i.emod 256).toNat

/-- Go conversion of an int to a uint64 (two's complement, modulo 2^64). -/
def u64OfInt (i : Int) : Nat := (i.emod (W : Int)).toNat

/-- The 23 node families of tree.go: the byte-slice globals whose backing
buffers give records their identity. -/
inductive Fam where
  | RootMatter | FileMatter | PackageDef | ImportStmt | ImportsDef | TypedIdent
  | RootOfType | TypDefStmt | StructType | BranchStmt | GoDferStmt | ReturnStmt
  | IncDecStmt | VarDefStmt | LblGotoCnt | IfceTypExp | CommentRow
  | Expression | BlocOfCode | ToplevFunc | AssignStmt | ClosureExp | IfceMethod
  deriving DecidableEq, Repr

/-- MaxSubnodes from tree.go: the size of the shared backing array. -/
def MaxSubnodes : Nat := 1000000

/-- Byte offset of a family inside the shared `storage` array, for the six
families carved from it (`Expression = storage[0:]`, `BlocOfCode =
storage[16:]`, `ToplevFunc = storage[32:]`, `AssignStmt = storage[48:]`,
`ClosureExp = storage[64:]`, `IfceMethod = storage[80:]`); `none` for the
separately allocated named families. -/
def famOff : Fam → Option Nat
  | .Expression => some 0
  | .BlocOfCode => some 16
  | .ToplevFunc => some 32
  | .AssignStmt => some 48
  | .ClosureExp => some 64
  | .IfceMethod => some 80
  | _ => none

/-- The text content backing a named family buffer (e.g. `[]byte("RootMatter")`);
`none` for the six families carved from the zero-initialised storage array. -/
def famText : Fam → Option String
  | .RootMatter => some "RootMatter"
  | .FileMatter => some "FileMatter"
  | .PackageDef => some "PackageDef"
  | .ImportStmt => some "ImportStmt"
  | .ImportsDef => some "ImportsDef"
  | .TypedIdent => some "TypedIdent"
  | .RootOfType => some "RootOfType"
  | .TypDefStmt => some "TypDefStmt"
  | .StructType => some "StructType"
  | .BranchStmt => some "BranchStmt"
  | .GoDferStmt => some "GoDferStmt"
  | .ReturnStmt => some "ReturnStmt"
  | .IncDecStmt => some "IncDecStmt"
  | .VarDefStmt => some "VarDefStmt"
  | .LblGotoCnt => some "LblGotoCnt"
  | .IfceTypExp => some "IfceTypExp"
  | .CommentRow => some "CommentRow"
  | _ => none

/-- Capacity of a family's full buffer: for the storage families the rest of
the 1,000,000-byte array past their offset; for a named family the length of
its backing text (Go guarantees `cap ≥ len` for `[]byte(string)`; we take the
minimal model `cap = len`). -/
def famCap (f : Fam) : Nat :=
  match famOff f with
  | some off => MaxSubnodes - off
  | none => (famText f).getD "" |>.length

/-- A populated (non-nil) record: raw text or a tagged structural node. -/
inductive Val where
  | str (s : String)
  | node (f : Fam) (len cap : Nat)
  deriving DecidableEq, Repr

/-- A stored record; `none` models a key bound to the Go nil slice. -/
def Rec := Option Val

/-- The flat store: Go's `map[uint64][]byte` as its lookup function.
`none` is an absent key. -/
def Store := Nat → Option Rec

/-- The Go value `ast[k]`: a missing key reads as the nil slice. -/
def deref (g : Store) (k : Nat) : Option Val := (g k).join

/-- The Poke function from tree.go: whether a key is occupied. -/
def Poke (g : Store) (k : Nat) : Bool := (g k).isSome

/-- Go `x == nil` on a record value. -/
def gNil (v : Option Val) : Bool := v.isNone

/-- Go `len(x)` on a record value (`len(nil) = 0`). -/
def gLen (v : Option Val) : Nat :=
  match v with
  | none => 0
  | some (.str s) => s.length
  | some (.node _ l _) => l

/-- Go `cap(x)` on a record value (`cap(nil) = 0`; for raw text the minimal
model `cap = len`). -/
def gCap (v : Option Val) : Nat :=
  match v with
  | none => 0
  | some (.str s) => s.length
  | some (.node _ _ c) => c

/-- Go `string(x)` on a record value: raw text verbatim; for a structural
record the first `len` bytes of its family buffer (zero bytes for the
storage families, the family name's prefix for the named ones). -/
def gStr (v : Option Val) : String :=
  match v with
  | none => ""
  | some (.str s) => s
  | some (.node f l _) =>
      match famText f with
      | some t => t.take l
      | none => String.mk (List.replicate l (Char.ofNat 0))

/-- The identity `&x[0]` of a record's first byte: `none` means the indexing
panics (nil or empty slice); `some none` a raw-text allocation (equal to no
family base); `some (some f)` the base of family buffer `f`. -/
def headFam (v : Option Val) : Option (Option Fam) :=
  match v with
  | none => none
  | some (.str s) => if s.length = 0 then none else some none
  | some (.node f l _) => if l = 0 then none else some (some f)

/-- The Which function from tree.go, with its panic made explicit: `none`
means Which panics (non-nil record of length zero); `some none` is Which's
nil result (a raw-text leaf, or a nil argument); `some (some f)` is the
family buffer Which returns. -/
def Which (v : Option Val) : Option (Option Fam) :=
  if gNil v then some none else headFam v

/-- The address function O from tree.go: the scramble from a node's key to
its first child's key, uint64 multiply/xor/shift cascade. -/
def O (n : Nat) : Nat :=
  let v := (n * 3935559000370003845 + 2691343689449507681) % W
  let v := (v ^^^ (v >>> 21)) % W
  let v := (v ^^^ ((v <<< 37) % W)) % W
  let v := (v ^^^ (v >>> 4)) % W
  let v := (v * 4768777513237032717) % W
  let v := (v ^^^ ((v <<< 20) % W)) % W
  let v := (v ^^^ (v >>> 41)) % W
  let v := (v ^^^ ((v <<< 5) % W)) % W
  v

/-! Variant constants from tree.go. -/

def BlocOfCodePlain : Nat := 0
def BlocOfCodeIf : Nat := 1
def BlocOfCodeIfElse : Nat := 2
def BlocOfCodeSwitch : Nat := 3
def BlocOfCodeFor : Nat := 4
def BlocOfCodeForRange : Nat := 5
def BlocOfCodeTypeSwitch : Nat := 6
def BlocOfCodeSelect : Nat := 7
def BlocOfCodeCase : Nat := 8
def BlocOfCodeDefault : Nat := 9
def BlocOfCodeNone : Nat := 10
def BlocOfCodeCommunicate : Nat := 11
def BlocOfCodeCommunicateDefault : Nat := 12
def BlocOfCodeTotalCount : Nat := 13
def ExpressionTotalCount : Nat := 38
def AssignStmtTotalCount : Nat := 19
def CommentRowEnder : Nat := 0
def CommentRowNormal : Nat := 1
def CommentRowSeparate : Nat := 2
def PackageDefSeparate : Nat := 1
def TypDefStmtAlias : Nat := 1
def TypedIdentNormal : Nat := 0
def TypedIdentEquals : Nat := 1
def TypedIdentEllipsis : Nat := 2
def TypedIdentTagged : Nat := 3

/-! Constructors from tree.go.  Each returns `some` of the record the Go
constructor builds, or `none` when the Go slice expression panics (slice
bounds out of range).  A three-index slice `buf[:l:c]` requires
`0 ≤ l ≤ c ≤ cap(buf)`; a two-index slice `buf[:l]` requires
`0 ≤ l ≤ cap(buf)` and keeps the buffer's capacity.  `kind` parameters are
Go bytes (values 0..255); count parameters are Go uint64 values. -/

/-- ExpressionNode: `Expression[:int(kind)+1 : int(elemscount+38)]`. -/
def ExpressionNode (kind elemscount : Nat) : Option Val :=
  let c : Int := intOfU64 ((elemscount + 38) % W)
  let l : Int := (kind : Int) + 1
  if 0 ≤ l ∧ l ≤ c ∧ c ≤ (famCap .Expression : Int) then
    some (.node .Expression l.toNat c.toNat)
  else none

/-- BlocOfCodeNode: `BlocOfCode[:int(kind)+1 : int(headelemscount)+13]`. -/
def BlocOfCodeNode (kind headelemscount : Nat) : Option Val :=
  let c : Int := intOfU64 headelemscount + 13
  let l : Int := (kind : Int) + 1
  if 0 ≤ l ∧ l ≤ c ∧ c ≤ (famCap .BlocOfCode : Int) then
    some (.node .BlocOfCode l.toNat c.toNat)
  else none

/-- AssignStmtNode: `AssignStmt[:int(kind)+1 : int(elemscount+19)]`. -/
def AssignStmtNode (kind elemscount : Nat) : Option Val :=
  let c : Int := intOfU64 ((elemscount + 19) % W)
  let l : Int := (kind : Int) + 1
  if 0 ≤ l ∧ l ≤ c ∧ c ≤ (famCap .AssignStmt : Int) then
    some (.node .AssignStmt l.toNat c.toNat)
  else none

/-- ToplevFuncNode: `ToplevFunc[:recv+1 : int(argc)+recv+1]`. -/
def ToplevFuncNode (receiver : Bool) (argc : Nat) : Option Val :=
  let recv : Int := if receiver then 1 else 0
  let c : Int := intOfU64 argc + recv + 1
  let l : Int := recv + 1
  if 0 ≤ l ∧ l ≤ c ∧ c ≤ (famCap .ToplevFunc : Int) then
    some (.node .ToplevFunc l.toNat c.toNat)
  else none

/-- ClosureExpNode: `ClosureExp[:int(paramscount)+1]`. -/
def ClosureExpNode (paramscount : Nat) : Option Val :=
  let l : Int := intOfU64 paramscount + 1
  if 0 ≤ l ∧ l ≤ (famCap .ClosureExp : Int) then
    some (.node .ClosureExp l.toNat (famCap .ClosureExp))
  else none

/-- A two-index slice `fam[:kind+1]` of a named family buffer. -/
def namedNode (f : Fam) (kind : Nat) : Option Val :=
  if kind + 1 ≤ famCap f then some (.node f (kind + 1) (famCap f)) else none

/-- BranchStmtNode: `BranchStmt[:int(kind)+1]`. -/
def BranchStmtNode (kind : Nat) : Option Val := namedNode .BranchStmt kind

/-- IncDecStmtNode: `IncDecStmt[:int(kind)+1]`. -/
def IncDecStmtNode (kind : Nat) : Option Val := namedNode .IncDecStmt kind

/-- GoDferStmtNode: `GoDferStmt[:int(kind)+1]`. -/
def GoDferStmtNode (kind : Nat) : Option Val := namedNode .GoDferStmt kind

/-- LblGotoCntNode: `LblGotoCnt[:int(kind)+1]`. -/
def LblGotoCntNode (kind : Nat) : Option Val := namedNode .LblGotoCnt kind

/-- VarDefStmtNode: `VarDefStmt[:int(kind)+1]`. -/
def VarDefStmtNode (kind : Nat) : Option Val := namedNode .VarDefStmt kind

/-- TypDefStmtNode: `TypDefStmt[:int(kind)+1]`. -/
def TypDefStmtNode (kind : Nat) : Option Val := namedNode .TypDefStmt kind

/-! Expression variant constants from tree.go. -/

def ExpressionBrackets : Nat := 0
def ExpressionOrOr : Nat := 1
def ExpressionAndAnd : Nat := 2
def ExpressionEqual : Nat := 3
def ExpressionNotEq : Nat := 4
def ExpressionLessThan : Nat := 5
def ExpressionLessEq : Nat := 6
def ExpressionGrtEq : Nat := 7
def ExpressionGrtThan : Nat := 8
def ExpressionPlus : Nat := 9
def ExpressionMinus : Nat := 10
def ExpressionOr : Nat := 11
def ExpressionXor : Nat := 12
def ExpressionMul : Nat := 13
def ExpressionDiv : Nat := 14
def ExpressionMod : Nat := 15
def ExpressionAnd : Nat := 16
def ExpressionAndNot : Nat := 17
def ExpressionLSh : Nat := 18
def ExpressionRSh : Nat := 19
def ExpressionNot : Nat := 20
def ExpressionDot : Nat := 21
def ExpressionSlice : Nat := 22
def ExpressionComposite : Nat := 23
def ExpressionCall : Nat := 24
def ExpressionArrow : Nat := 25
def ExpressionArrayType : Nat := 26
def ExpressionSliceType : Nat := 27
def ExpressionKeyVal : Nat := 28
def ExpressionType : Nat := 29
def ExpressionCallDotDotDot : Nat := 30
def ExpressionComposed : Nat := 31
def ExpressionIndex : Nat := 32
def ExpressionMap : Nat := 33
def ExpressionIdentifier : Nat := 34
def ExpressionChan : Nat := 35
def ExpressionInChan : Nat := 36
def ExpressionOutChan : Nat := 37
def AssignStmtIotaIsLast : Nat := 13
def AssignStmtTypeIsLast : Nat := 14

/-! The render effect: `Code` takes a `print` callback and reads the store.
Its effects are the ordered `print` calls; it can also panic (slice index
out of range).  We model a computation as a function of the store and the
output emitted so far; `Res.fuelout` is the extra outcome of exhausting the
step budget of the embedding (the Go original just keeps running). -/

/-- Outcome of a render step: normal result with the store and output, a
runtime panic, or exhaustion of the embedding's fuel. -/
inductive Res (α : Type) where
  | ok : α → Store → List String → Res α
  | panic : Res α
  | fuelout : Res α

/-- A render computation. -/
def M (α : Type) : Type := Store → List String → Res α

/-- Monadic return. -/
def Mpure {α : Type} (a : α) : M α := fun s out => .ok a s out

/-- Monadic sequencing; panic and fuel exhaustion abort. -/
def Mbind {α β : Type} (m : M α) (f : α → M β) : M β := fun s out =>
  match m s out with
  | .ok a s' out' => f a s' out'
  | .panic => .panic
  | .fuelout => .fuelout

instance : Monad M where
  pure := Mpure
  bind := Mbind

/-- Read `ast[k]` (a missing key reads as the nil slice). -/
def mval (k : Nat) : M (Option Val) := fun s out => .ok (deref s k) s out

/-- The comma-ok read `_, ok := ast[k]`, i.e. `Poke`. -/
def mpoke (k : Nat) : M Bool := fun s out => .ok (Poke s k) s out

/-- Emit one string through the `print` callback. -/
def pr (t : String) : M Unit := fun s out => .ok () s (out ++ [t])

/-- A Go runtime panic. -/
def mpanic {α : Type} : M α := fun _ _ => .panic

/-- Evaluate `&x[0]`, panicking on a nil or empty slice. -/
def mhead (v : Option Val) : M (Option Fam) :=
  match headFam v with
  | none => mpanic
  | some r => Mpure r

/-- Call `Which(x)`, with Which's internal panic propagated. -/
def mWhich (v : Option Val) : M (Option Fam) :=
  match Which v with
  | none => mpanic
  | some r => Mpure r

/-- Go `x != nil && &x[0] == &F[0]` (short-circuit; the indexing can panic). -/
def misFam (v : Option Val) (f : Fam) : M Bool :=
  if gNil v then Mpure false
  else do
    let h ← mhead v
    Mpure (decide (h = some f))

/-- Go `x != nil && &x[0] != &F[0]`. -/
def misNotFam (v : Option Val) (f : Fam) : M Bool :=
  if gNil v then Mpure false
  else do
    let h ← mhead v
    Mpure (decide (h ≠ some f))

/-- Go `x == nil || &x[0] == &F[0]`. -/
def mnilOrFam (v : Option Val) (f : Fam) : M Bool :=
  if gNil v then Mpure true
  else do
    let h ← mhead v
    Mpure (decide (h = some f))

/-- Go `x == nil || &x[0] != &F[0]`. -/
def mnilOrNotFam (v : Option Val) (f : Fam) : M Bool :=
  if gNil v then Mpure true
  else do
    let h ← mhead v
    Mpure (decide (h ≠ some f))

/-- Prefix of a CommentRow node (tree.go 678-682). -/
def introCommentRow (aoi : String) (v : Option Val) : M Unit := do
  if (gLen v : Int) - 1 = (CommentRowSeparate : Int) then pr "" else Mpure ()
  pr aoi

/-- Prefix of a PackageDef node (tree.go 684-689). -/
def introPackageDef (aoi : String) (v : Option Val) : M Unit := do
  if (gLen v : Int) - 1 = (PackageDefSeparate : Int) then pr "" else Mpure ()
  pr "package "
  pr aoi

/-- Prefix of an ImportStmt node (tree.go 691-705). -/
def introImportStmt (it par : Nat) (aoi : String) : M Unit := do
  let p ← mval par
  let defparent ← misFam p .ImportsDef
  if defparent then Mpure () else pr "import "
  pr aoi
  let another ← mval ((O it + 1) % W)
  if (gStr another).length > 0 then do
    pr " "
    pr (gStr another)
  else Mpure ()
  if defparent then pr "" else Mpure ()

/-- Prefix of an ImportsDef node (tree.go 707-709). -/
def introImportsDef : M Unit := do
  pr "import ("
  pr ""

/-- Prefix of a ToplevFunc node (tree.go 711-715). -/
def introToplevFunc (v : Option Val) : M Unit := do
  pr "func "
  if gLen v = 2 then pr "(" else Mpure ()

/-- Prefix of a BlocOfCode node (tree.go 717-763). -/
def introBlocOfCode (v : Option Val) : M Unit := do
  let k := byteOfInt ((gLen v : Int) - 1)
  if k = BlocOfCodePlain then Mpure ()
  else if k = BlocOfCodeIf then pr "if "
  else if k = BlocOfCodeIfElse then pr "if "
  else if k = BlocOfCodeFor then pr "for "
  else if k = BlocOfCodeForRange then pr "for range "
  else if k = BlocOfCodeSwitch then pr "switch "
  else if k = BlocOfCodeTypeSwitch then pr "switch "
  else if k = BlocOfCodeSelect then pr "select "
  else if k = BlocOfCodeCase then pr "case "
  else if k = BlocOfCodeCommunicateDefault then do pr "default:"; pr ""
  else if k = BlocOfCodeDefault then do pr "default:"; pr ""
  else if k = BlocOfCodeCommunicate then pr "case "
  else Mpure ()
  if gCap v = BlocOfCodeTotalCount then
    if (gLen v : Int) - 1 < (BlocOfCodeCase : Int) then do pr "\x7b"; pr ""
    else Mpure ()
  else Mpure ()

/-- Prefix of a TypDefStmt node (tree.go 767-774). -/
def introTypDefStmt (aoi : String) (v : Option Val) : M Unit := do
  pr "type "
  pr aoi
  pr " "
  let op := byteOfInt ((gLen v : Int) - 1)
  if op = TypDefStmtAlias then pr "= " else Mpure ()

/-- Prefix of a StructType node (tree.go 776-780). -/
def introStructType (it : Nat) : M Unit := do
  pr "struct\x7b"
  let c0 ← mval (O it)
  if ¬ gNil c0 then pr "" else Mpure ()

/-- Prefix of an IfceTypExp node (tree.go 782-786). -/
def introIfceTypExp (it : Nat) : M Unit := do
  pr "interface\x7b"
  let c0 ← mval (O it)
  if ¬ gNil c0 then pr "" else Mpure ()

/-- Prefix of a GoDferStmt node (tree.go 788-796). -/
def introGoDferStmt (v : Option Val) : M Unit := do
  let k := byteOfInt ((gLen v : Int) - 1)
  if k = 0 then pr "go "
  else if k = 1 then pr "defer "
  else Mpure ()

/-- Prefix of a BranchStmt node (tree.go 798-815). -/
def introBranchStmt (v : Option Val) : M Unit := do
  let k := byteOfInt ((gLen v : Int) - 1)
  if k = 0 then pr ";"
  else if k = 1 then pr "break"
  else if k = 2 then pr "continue"
  else if k = 3 then pr "fallthrough"
  else if k = 4 then pr "goto"
  else Mpure ()

/-- Prefix of an Expression node (tree.go 817-877). -/
def introExpression (v : Option Val) : M Unit := do
  let op := byteOfInt ((gLen v : Int) - 1)
  let l := byteOfInt ((gCap v : Int) - (ExpressionTotalCount : Int))
  if l = 1 then
    if op = ExpressionBrackets then pr "("
    else if op = ExpressionPlus then pr "+"
    else if op = ExpressionMinus then pr "-"
    else if op = ExpressionXor then pr "^"
    else if op = ExpressionMul then pr "*"
    else if op = ExpressionAnd then pr "&"
    else if op = ExpressionNot then pr "!"
    else if op = ExpressionArrow then pr "<-"
    else if op = ExpressionChan then pr "chan "
    else if op = ExpressionInChan then pr "chan<- "
    else if op = ExpressionOutChan then pr "<-chan "
    else if op = ExpressionComposed then pr "\x7b"
    else Mpure ()
  else
    if op = ExpressionArrayType then pr "[]"
    else if op = ExpressionComposed then do
      pr "\x7b"
      if l = 0 then pr "\x7d" else Mpure ()
    else if op = ExpressionSliceType then pr "["
    else if op = ExpressionMap then pr "map["
    else Mpure ()

/-- Prefix of a VarDefStmt node (tree.go 882-899). -/
def introVarDefStmt (it : Nat) (v : Option Val) : M Unit := do
  let op := byteOfInt ((gLen v : Int) - 1)
  let a1 ← mval ((O it + 1) % W)
  let a0 ← mval (O it)
  let multi := gLen a1 > 0
  let none0 := gLen a0 = 0
  if op = 0 then pr "var "
  else if op = 1 then pr "const "
  else Mpure ()
  if multi then do pr "("; pr ""
  else if none0 then pr "()"
  else Mpure ()

/-- Prefix of a LblGotoCnt node (tree.go 901-913). -/
def introLblGotoCnt (v : Option Val) : M Unit := do
  let op := byteOfInt ((gLen v : Int) - 1)
  if op = 1 then pr "goto "
  else if op = 2 then pr "continue "
  else if op = 3 then pr "break "
  else Mpure ()

/-- Prefix of a ClosureExp node (tree.go 915-924). -/
def introClosureExp (it : Nat) (v : Option Val) : M Unit := do
  pr "func("
  let c0 ← mval (O it)
  let end1 ← mnilOrFam c0 .BlocOfCode
  let separ := gLen v - 1
  if separ = 0 then pr ")(" else Mpure ()
  if end1 then pr ")" else Mpure ()

/-- Prefix of a TypedIdent node (tree.go 926-934). -/
def introTypedIdent (it : Nat) (v : Option Val) : M Unit := do
  let a1 ← mval ((O it + 1) % W)
  let g1 ← mnilOrNotFam a1 .RootOfType
  if g1 then
    let op := byteOfInt ((gLen v : Int) - 1)
    if op = TypedIdentEllipsis then pr "..." else Mpure ()
  else Mpure ()

/-- The per-node prefix part of `Code` (tree.go lines 674-937): the switch on
`&ast[iterator][0]`, guarded by `ast[iterator] != nil`.  `aoi` is the cached
`ast_o_iterator = string(ast[O(iterator)])`. -/
def codeIntro (it par : Nat) (aoi : String) : M Unit := do
  let v ← mval it
  if gNil v then Mpure () else do
  let hf ← mhead v
  match hf with
  | some .CommentRow => introCommentRow aoi v
  | some .PackageDef => introPackageDef aoi v
  | some .ImportStmt => introImportStmt it par aoi
  | some .ImportsDef => introImportsDef
  | some .ToplevFunc => introToplevFunc v
  | some .BlocOfCode => introBlocOfCode v
  | some .RootOfType => Mpure ()
  | some .TypDefStmt => introTypDefStmt aoi v
  | some .StructType => introStructType it
  | some .IfceTypExp => introIfceTypExp it
  | some .GoDferStmt => introGoDferStmt v
  | some .BranchStmt => introBranchStmt v
  | some .Expression => introExpression v
  | some .ReturnStmt => pr "return "
  | some .VarDefStmt => introVarDefStmt it v
  | some .LblGotoCnt => introLblGotoCnt v
  | some .ClosureExp => introClosureExp it v
  | some .TypedIdent => introTypedIdent it v
  | _ => Mpure ()

/-- Postfix of an ImportsDef node (tree.go 946-949). -/
def postImportsDef (i : Nat) : M Unit :=
  if i = uint64big then pr ")" else Mpure ()

/-- Postfix of a ToplevFunc node (tree.go 951-990). -/
def postToplevFunc (it : Nat) (aoi : String) (i : Nat) (v : Option Val) : M Unit := do
  let a0 ← mval ((O it + i) % W)
  let alpha ← mnilOrFam a0 .BlocOfCode
  let a1 ← mval ((O it + i + 1) % W)
  let beta ← mnilOrFam a1 .BlocOfCode
  let gamma := decide (gCap v = gLen v)
  let epsil := decide ((gLen v : Int) - 1 ≠ 0)
  let omega := decide (i ≠ uint64big)
  let theta := decide (i = 0)
  let phi := decide (i = 1)
  let rho := decide ((i + 1) % W = gCap v)
  if alpha then Mpure ()
  else if beta then
    if gamma && omega && (epsil == phi) && (theta != phi) then do
      if phi then pr ") " else Mpure ()
      pr aoi
      pr "()"
    else pr ")"
  else do
    if !theta then
      if epsil && phi then do
        pr ") "
        pr aoi
        pr "("
      else if !rho then pr ", "
      else Mpure ()
    else if !epsil then do
      pr aoi
      pr "("
    else Mpure ()
    if rho then pr ")(" else Mpure ()
  if i = uint64big then pr "" else Mpure ()

/-- Postfix of a TypedIdent node (tree.go 992-1017). -/
def postTypedIdent (it : Nat) (i : Nat) (v : Option Val) : M Unit := do
  let a0 ← mval ((O it + i) % W)
  let g0 ← misNotFam a0 .RootOfType
  if g0 then do
    let am1 ← mval ((O it + i + (W - 1)) % W)
    let gm1 ← misFam am1 .RootOfType
    if gm1 then pr " " else Mpure ()
    pr (gStr a0)
    let a1 ← mval ((O it + i + 1) % W)
    let g1 ← misNotFam a1 .RootOfType
    if g1 then pr ", "
    else
      let op := byteOfInt ((gLen v : Int) - 1)
      if op = TypedIdentTagged then pr " "
      else if op = TypedIdentNormal then pr " "
      else if op = TypedIdentEquals then pr " = "
      else if op = TypedIdentEllipsis then pr " ..."
      else Mpure ()
  else Mpure ()

/-- Postfix of a BlocOfCode node (tree.go 1019-1046). -/
def postBlocOfCode (i : Nat) (v : Option Val) : M Unit :=
  if i ≠ uint64big then
    if (i + BlocOfCodeTotalCount + 1) % W = gCap v then
      if (gLen v : Int) - 1 = (BlocOfCodeCase : Int) then do pr ":"; pr ""
      else if (gLen v : Int) - 1 = (BlocOfCodeCommunicate : Int) then do pr ":"; pr ""
      else if (gLen v : Int) - 1 < (BlocOfCodeCase : Int) then do pr "\x7b"; pr ""
      else Mpure ()
    else if (i + BlocOfCodeTotalCount + 1) % W > gCap v then pr ""
    else if (i + BlocOfCodeTotalCount + 1) % W < gCap v then
      if (gLen v : Int) - 1 = (BlocOfCodeCase : Int) then pr ", "
      else Mpure ()
    else Mpure ()
  else do
    if (gLen v : Int) - 1 < (BlocOfCodeCase : Int) then pr "\x7d" else Mpure ()
    if (gLen v : Int) - 1 = (BlocOfCodeIfElse : Int) then pr " else" else Mpure ()

/-- Interior separator token of an Expression node (tree.go 1080-1186): the
switch run when `((i >= 1) == (l > 1)) && (i != l)` with nonzero `i`. -/
def postExprSepMid (op i2 : Nat) : M Unit :=
  if op = ExpressionDot then pr "."
  else if op = ExpressionCallDotDotDot then
    (if i2 = 1 then pr "(" else pr ",")
  else if op = ExpressionCall then
    (if i2 = 1 then pr "(" else pr ",")
  else if op = ExpressionOrOr then pr " || "
  else if op = ExpressionAndAnd then pr " && "
  else if op = ExpressionEqual then pr " == "
  else if op = ExpressionNotEq then pr " != "
  else if op = ExpressionLessThan then pr " < "
  else if op = ExpressionLessEq then pr " <= "
  else if op = ExpressionGrtEq then pr " >= "
  else if op = ExpressionGrtThan then pr " > "
  else if op = ExpressionPlus then pr " + "
  else if op = ExpressionMinus then pr " - "
  else if op = ExpressionOr then pr " | "
  else if op = ExpressionXor then pr " ^ "
  else if op = ExpressionMul then pr " * "
  else if op = ExpressionDiv then pr " / "
  else if op = ExpressionMod then pr " % "
  else if op = ExpressionAnd then pr " & "
  else if op = ExpressionAndNot then pr " &^ "
  else if op = ExpressionLSh then pr " << "
  else if op = ExpressionRSh then pr " >> "
  else if op = ExpressionArrow then pr " <- "
  else if op = ExpressionKeyVal then pr ":"
  else if op = ExpressionIndex then pr "["
  else if op = ExpressionSlice then
    (if i2 = 1 then pr "[" else pr ":")
  else if op = ExpressionComposite then
    (if i2 = 1 then pr "\x7b" else pr ", ")
  else if op = ExpressionComposed then pr ", "
  else if op = ExpressionMap then pr "]"
  else if op = ExpressionSliceType then pr "]"
  else if op = ExpressionType then pr ".("
  else Mpure ()

/-- Zero-or-one-operand closer of an Expression node (tree.go 1188-1208):
the switch run when `(i == 1) && (l == 1)`. -/
def postExprSepOne (op : Nat) : M Unit :=
  if op = ExpressionBrackets then pr ")"
  else if op = ExpressionCallDotDotDot then pr "()"
  else if op = ExpressionCall then pr "()"
  else if op = ExpressionComposed then pr "\x7d"
  else if op = ExpressionComposite then pr "\x7b\x7d"
  else if op = ExpressionType then pr ".(type)"
  else Mpure ()

/-- Closing token of an Expression node (tree.go 1209-1237): the switch run
when `(i == l) && (i > 0)`. -/
def postExprSepEnd (op l : Nat) : M Unit :=
  if op = ExpressionIndex then pr "]"
  else if op = ExpressionSlice then
    (if l = 2 then pr ":]" else pr "]")
  else if op = ExpressionComposed then pr "\x7d"
  else if op = ExpressionComposite then pr "\x7d"
  else if op = ExpressionCallDotDotDot then pr "...)"
  else if op = ExpressionCall then pr ")"
  else if op = ExpressionType then pr ")"
  else Mpure ()

/-- Postfix of an Expression node (tree.go 1065-1244). -/
def postExpression (it : Nat) (i : Nat) (v : Option Val) : M Unit := do
  let caseheader := true
  let blockheader := true
  let op := byteOfInt ((gLen v : Int) - 1)
  let l := u64OfInt ((gCap v : Int) - (ExpressionTotalCount : Int))
  let a0 ← mval ((O it + i) % W)
  let w0 ← mWhich a0
  if w0.isNone then
    if gLen a0 > 0 then pr (gStr a0) else Mpure ()
  else Mpure ()
  if i ≠ uint64big then do
    let i2 := (i + 1) % W
    if (decide (i2 ≥ 1) == decide (l > 1)) && decide (i2 ≠ l) then
      if i2 = 0 then Mpure ()
      else postExprSepMid op i2
    else if i2 = 1 ∧ l = 1 then postExprSepOne op
    else if i2 = l ∧ i2 > 0 then postExprSepEnd op l
    else Mpure ()
    if i2 = l then
      if caseheader then Mpure ()
      else if blockheader then pr " "
      else Mpure ()
    else Mpure ()
  else Mpure ()

/-- Postfix of a ReturnStmt node (tree.go 1246-1249). -/
def postReturnStmt (it : Nat) (i : Nat) : M Unit :=
  if i ≠ uint64big then do
    let a1 ← mval ((O it + i + 1) % W)
    if ¬ gNil a1 then pr ", " else Mpure ()
  else Mpure ()

/-- Postfix of an IncDecStmt node (tree.go 1251-1269). -/
def postIncDecStmt (it : Nat) (aoi : String) (i : Nat) (v : Option Val) : M Unit := do
  if i = 0 then do
    let c0 ← mval (O it)
    let w ← mWhich c0
    if w.isNone then
      if aoi.length > 0 then pr aoi else Mpure ()
    else Mpure ()
  else Mpure ()
  if i = uint64big then
    let op := byteOfInt ((gLen v : Int) - 1)
    if op = 0 then pr "++"
    else if op = 1 then pr "--"
    else Mpure ()
  else Mpure ()

/-- Postfix of an AssignStmt node (tree.go 1271-1370). -/
def postAssignStmt (it : Nat) (i : Nat) (v : Option Val) : M Unit := do
  let blockheader := true
  let op := byteOfInt ((gLen v : Int) - 1)
  let l := u64OfInt ((gCap v : Int) - (AssignStmtTotalCount : Int))
  let a0 ← mval ((O it + i) % W)
  let w0 ← mWhich a0
  if w0.isNone then
    if (gStr a0).length > 0 then pr (gStr a0) else Mpure ()
  else Mpure ()
  if i ≠ uint64big then
    let i2 := (i + 1) % W
    if i2 = l then
      if blockheader then pr " " else pr ""
    else if (i2 + 1) % W = l ∧ op > AssignStmtTypeIsLast then
      if op = 15 then pr " = "
      else if op = 16 then pr " := "
      else if op = 17 then pr " = range "
      else if op = 18 then pr " := range "
      else if op = 13 then pr ", "
      else Mpure ()
    else if i2 = ((l + 1) % W) >>> 1 ∧ op ≠ AssignStmtTypeIsLast then
      if op = 0 then pr " = "
      else if op = 1 then pr " := "
      else if op = 3 then pr " += "
      else if op = 4 then pr " -= "
      else if op = 5 then pr " *= "
      else if op = 6 then pr " /= "
      else if op = 7 then pr " %= "
      else if op = 8 then pr " &= "
      else if op = 9 then pr " |= "
      else if op = 10 then pr " ^= "
      else if op = 11 then pr " <<= "
      else if op = 12 then pr " >>= "
      else if op = 2 then pr " &^= "
      else if op = 15 then pr ", "
      else if op = 16 then pr ", "
      else if op = 17 then pr ", "
      else if op = 18 then pr ", "
      else if op = 13 then pr ", "
      else Mpure ()
    else if i2 = l >>> 1 ∧ op < AssignStmtTypeIsLast then pr " "
    else if i2 > 0 ∧ ((i2 + 1) % W ≠ l ∨ op ≠ AssignStmtTypeIsLast) then pr ", "
    else if i2 > 0 then pr " "
    else Mpure ()
  else Mpure ()

/-- Postfix of a RootOfType node (tree.go 1372-1377). -/
def postRootOfType (it : Nat) (aoi : String) (i : Nat) : M Unit :=
  if i = uint64big then do
    let c0 ← mval (O it)
    let w ← mWhich c0
    if w.isNone then
      if aoi.length > 0 then pr aoi else Mpure ()
    else Mpure ()
  else Mpure ()

/-- Postfix of a LblGotoCnt node (tree.go 1379-1397). -/
def postLblGotoCnt (aoi : String) (i : Nat) (v : Option Val) : M Unit :=
  if i = uint64big then
    let op := byteOfInt ((gLen v : Int) - 1)
    if op = 3 then pr aoi
    else if op = 2 then pr aoi
    else if op = 1 then pr aoi
    else if op = 0 then do
      pr aoi
      pr ": "
    else Mpure ()
  else Mpure ()

/-- Postfix of a VarDefStmt node (tree.go 1399-1413). -/
def postVarDefStmt (it : Nat) (i : Nat) : M Unit :=
  if i ≠ uint64big then do
    let a0 ← mval ((O it + i) % W)
    if gLen a0 ≠ 0 then do
      let a1 ← mval ((O it + i + 1) % W)
      if gLen a1 ≠ 0 then pr "" else Mpure ()
    else Mpure ()
    let am1 ← mval ((O it + i + (W - 1)) % W)
    if gLen am1 ≠ 0 then do
      let a1 ← mval ((O it + i + 1) % W)
      if gLen a1 = 0 then do
        pr ""
        pr ")"
        pr ""
      else Mpure ()
    else Mpure ()
  else Mpure ()

/-- Postfix of a FileMatter node (tree.go 1415-1428). -/
def postFileMatter (it : Nat) (i : Nat) : M Unit :=
  if i ≠ uint64big then do
    let a1 ← mval ((O it + i + 1) % W)
    let xyz ← mnilOrFam a1 .CommentRow
    let a0 ← mval ((O it + i) % W)
    let abc ← misFam a0 .CommentRow
    let df ← misFam a1 .CommentRow
    let end1 := decide ((gLen a1 : Int) - 1 = (CommentRowEnder : Int))
    let ene := decide ((gLen a0 : Int) - 1 = (CommentRowEnder : Int))
    if !xyz || !end1 then pr "" else Mpure ()
    if abc && df && end1 && ene then pr "" else Mpure ()
  else Mpure ()

/-- Postfix of a ClosureExp node (tree.go 1430-1446). -/
def postClosureExp (it : Nat) (i : Nat) (v : Option Val) : M Unit :=
  if i ≠ uint64big then do
    let a1 ← mval ((O it + i + 1) % W)
    let end1 ← mnilOrFam a1 .BlocOfCode
    let a0 ← mval ((O it + i) % W)
    let xyz ← mnilOrFam a0 .BlocOfCode
    if end1 then
      if !xyz then pr ")" else Mpure ()
    else if !xyz then
      let separ := gLen v - 1
      if (i + 1) % W = separ then pr ")(" else pr ", "
    else Mpure ()
  else Mpure ()

/-- Postfix of an IfceMethod node (tree.go 1448-1472). -/
def postIfceMethod (it : Nat) (i : Nat) (v : Option Val) : M Unit :=
  if i = 0 then do
    let a1 ← mval ((O it + i + 1) % W)
    if gNil a1 then pr "()"
    else do
      let op := gLen v - 1
      if 0 = op then pr "()" else Mpure ()
      pr "("
  else if i ≠ uint64big then do
    let a1 ← mval ((O it + i + 1) % W)
    if gNil a1 then pr ")"
    else
      let op := gLen v - 1
      if i = op then pr ")(" else pr ", "
  else Mpure ()

/-- The per-sibling postfix part of `Code`'s child loop (tree.go lines
944-1475): the switch on `&ast[iterator][0]` run after each loop step, with
`i = uint64big` at the end of the run. -/
def codePost (it par : Nat) (aoi : String) (i : Nat) : M Unit := do
  let v ← mval it
  if gNil v then Mpure () else do
  let hf ← mhead v
  match hf with
  | some .ImportsDef => postImportsDef i
  | some .ToplevFunc => postToplevFunc it aoi i v
  | some .TypedIdent => postTypedIdent it i v
  | some .BlocOfCode => postBlocOfCode i v
  | some .TypDefStmt => if i = uint64big then pr "" else Mpure ()
  | some .IfceTypExp => if i = uint64big then pr "\x7d" else pr ""
  | some .StructType => if i = uint64big then pr "\x7d" else pr ""
  | some .GoDferStmt => Mpure ()
  | some .Expression => postExpression it i v
  | some .ReturnStmt => postReturnStmt it i
  | some .IncDecStmt => postIncDecStmt it aoi i v
  | some .AssignStmt => postAssignStmt it i v
  | some .RootOfType => postRootOfType it aoi i
  | some .LblGotoCnt => postLblGotoCnt aoi i v
  | some .VarDefStmt => postVarDefStmt it i
  | some .FileMatter => postFileMatter it i
  | some .ClosureExp => postClosureExp it i v
  | some .IfceMethod => postIfceMethod it i v
  | _ => Mpure ()

/-- The child-run loop of `Code` (tree.go lines 938-943 plus the postfix
switch): scan `i = 0, 1, 2, ...` while the key `O(iterator)+i` is occupied,
rendering each child with `child`; on the first unoccupied key set
`i = uint64big`, run the postfix once more and stop.  The first `Nat`
argument is the embedding's fuel, one unit per iteration. -/
def codeLoop (child : Nat → Nat → M Unit) (it par : Nat) (aoi : String) :
    Nat → Nat → M Unit
  | 0, _ => fun _ _ => .fuelout
  | f + 1, i =>
    if i < uint64big then do
      let b ← mpoke ((O it + i) % W)
      if b then do
        child ((O it + i) % W) it
        codePost it par aoi i
        codeLoop child it par aoi f (i + 1)
      else
        codePost it par aoi uint64big
    else Mpure ()

/-- The Code function from tree.go: generate go source code from an abstract
syntax tree, emitting through the `print` callback (collected in order).
Fuelled: `Code (f+1)` spends `f` on recursive child renders and up to `f+1`
loop iterations; a `Res.fuelout` result only means the fuel was too small. -/
def Code : Nat → Nat → Nat → M Unit
  | 0, _, _ => fun _ _ => .fuelout
  | f + 1, it, par => do
    let c0 ← mval (O it)
    let aoi := gStr c0
    codeIntro it par aoi
    codeLoop (Code f) it par aoi (f + 1) 0

/-- The ordered sequence of strings a render pass emits, when it completes
within `fuel` without panicking. -/
def CodeOut (fuel : Nat) (g : Store) (it par : Nat) : Option (List String) :=
  match Code fuel it par g [] with
  | .ok _ _ out => some out
  | _ => none

/-- Concatenate emitted strings the way the `Printer` callback displays
them: an empty string prints as a newline. -/
def emitStr (out : List String) : String :=
  out.foldl (fun acc s => acc ++ (if s = "" then "\n" else s)) ""

/-- Store preservation: a render computation never alters the store. -/
def SPdef {α : Type} (m : M α) : Prop :=
  ∀ s out a s' out', m s out = .ok a s' out' → s' = s



/-- The contiguous-run walk described by the spec: with `child`, render
exactly the children at indices `i, i+1, ..., i+n-1` of `it` in increasing
order, running the sibling postfix after each, and close with one run of the
end-of-run postfix (`i = uint64big`).  Reference model for `codeLoop`. -/
def runWalk (child : Nat → Nat → M Unit) (it par : Nat) (aoi : String) :
    Nat → Nat → M Unit
  | _, 0 => codePost it par aoi uint64big
  | i, n + 1 => do
      child ((O it + i) % W) it
      codePost it par aoi i
      runWalk child it par aoi (i + 1) n


/-- A store holding one present key bound to an empty (non-nil) raw-text
record at address 0. -/
def stBad : Store := fun k => if k = 0 then some (some (.str "")) else none

/-- A store holding one present key bound to the nil slice at address 5. -/
def stNil : Store := fun k => if k = 5 then some none else none


/-- The introducer keyword tokens of a BlocOfCode variant, as the spec
describes them (claim-side reference table). -/
def blocKw (k : Nat) : List String :=
  if k = BlocOfCodeIf ∨ k = BlocOfCodeIfElse then ["if "]
  else if k = BlocOfCodeFor then ["for "]
  else if k = BlocOfCodeForRange then ["for range "]
  else if k = BlocOfCodeSwitch ∨ k = BlocOfCodeTypeSwitch then ["switch "]
  else if k = BlocOfCodeSelect then ["select "]
  else if k = BlocOfCodeCase ∨ k = BlocOfCodeCommunicate then ["case "]
  else if k = BlocOfCodeDefault ∨ k = BlocOfCodeCommunicateDefault then ["default:", ""]
  else []

/-- A BlocOfCode record with variant `k` and `h` declared header elements. -/
def blocRec (k h : Nat) : Option Val := some (.node .BlocOfCode (k + 1) (13 + h))

/-- A store holding an if/else-if chain head: at 0 a BlocOfCodeIfElse block
with one header element, whose header child is an identifier expression
wrapping the leaf "c" and whose body child is a break statement. -/
def stIf : Store := fun k =>
  if k = 0 then some (some (.node .BlocOfCode 3 14))
  else if k = O 0 then some (some (.node .Expression 35 39))
  else if k = (O 0 + 1) % W then some (some (.node .BranchStmt 2 10))
  else if k = O (O 0) then some (some (.str "c"))
  else none

/-- A store holding one CommentRowSeparate comment node at 11. -/
def stC : Store := fun k =>
  if k = 11 then some (some (.node .CommentRow 3 10))
  else if k = O 11 then some (some (.str "// hi"))
  else none

/-- A store with a two-child run under 7: a leaf then an explicit-nil
record, with the run ending at index 2. -/
def stRun : Store := fun k =>
  if k = O 7 then some (some (.str "x"))
  else if k = (O 7 + 1) % W then some none
  else none


/-- A store holding a call expression at 3 whose only child is the callee
leaf "f". -/
def stCall : Store := fun k =>
  if k = 3 then some (some (.node .Expression 25 39))
  else if k = O 3 then some (some (.str "f"))
  else none

/-- A store holding a composite literal at 3 whose only child is the type
leaf "T". -/
def stCompT : Store := fun k =>
  if k = 3 then some (some (.node .Expression 24 39))
  else if k = O 3 then some (some (.str "T"))
  else none

/-- A store holding a key-value element at 3 with key leaf "k1" and value
leaf "v1". -/
def stKV : Store := fun k =>
  if k = 3 then some (some (.node .Expression 29 40))
  else if k = O 3 then some (some (.str "k1"))
  else if k = (O 3 + 1) % W then some (some (.str "v1"))
  else none

/-- A store holding a keyed composite literal at 0: type leaf "T" and three
KeyVal elements k1:v1, k2:v2, k3:v3, each with leaf key and value. -/
def stComp : Store := fun k =>
  if k = 0 then some (some (.node .Expression 24 42))
  else if k = O 0 then some (some (.str "T"))
  else if k = (O 0 + 1) % W then some (some (.node .Expression 29 40))
  else if k = (O 0 + 2) % W then some (some (.node .Expression 29 40))
  else if k = (O 0 + 3) % W then some (some (.node .Expression 29 40))
  else if k = O ((O 0 + 1) % W) then some (some (.str "k1"))
  else if k = (O ((O 0 + 1) % W) + 1) % W then some (some (.str "v1"))
  else if k = O ((O 0 + 2) % W) then some (some (.str "k2"))
  else if k = (O ((O 0 + 2) % W) + 1) % W then some (some (.str "v2"))
  else if k = O ((O 0 + 3) % W) then some (some (.str "k3"))
  else if k = (O ((O 0 + 3) % W) + 1) % W then some (some (.str "v3"))
  else none


/-- One step state of the comment scanner (tree.go companion LookupComments,
src/unnamed/part_000 50-89): walks the byte list one position at a time,
carrying the loop index `i`, the `whitespace`, `cleanline` and `sawender`
flags, and the ender / separ position lists accumulated so far. -/
def lcAux (i : Nat) (ws cl se : Bool) (en sp : List Nat) :
    List Nat → List Nat × List Nat
  | [] => (en, sp)
  | [_] => (en, sp)
  | c :: d :: rest =>
    if c = 10 then
      lcAux (i + 1) true (ws || cl) false en sp (d :: rest)
    else
      let hitEn := (c == 47) && ((d == 47) || (d == 42)) && !ws && !se
      let en1 := if hitEn then en ++ [(i + 1) / 2] else en
      let se1 := se || hitEn
      let hitSp := ((c == 47) && ((d == 47) || (d == 42)) ||
        (c == 112) && (d == 97)) && cl
      let sp1 := if hitSp then sp ++ [(i + 1) / 2] else sp
      let cl1 := if hitSp then false else cl
      let ws1 := if 32 < c then false else ws
      let cl2 := if 32 < c then false else cl1
      lcAux (i + 1) ws1 cl2 se1 en1 sp1 (d :: rest)

/-- LookupComments (src/unnamed/part_000 50-89): scans the raw file bytes and
returns the recorded ender positions and separ positions, each position
being (i+1)/2 for the marker index i. -/
def LookupComments (file : List Nat) : List Nat × List Nat :=
  lcAux 0 false false false [] [] file

/-- The whitespace flag the scanner holds when it reaches index `i`. -/
def lwAt (file : List Nat) : Nat → Bool
  | 0 => false
  | i + 1 =>
    if file.getD i 0 = 10 then true
    else if 32 < file.getD i 0 then false
    else lwAt file i

/-- The cleanline flag the scanner holds when it reaches index `i`. -/
def clAt (file : List Nat) : Nat → Bool
  | 0 => false
  | i + 1 =>
    if file.getD i 0 = 10 then lwAt file i || clAt file i
    else if 32 < file.getD i 0 then false
    else clAt file i

/-- The sawender flag the scanner holds when it reaches index `i`. -/
def seAt (file : List Nat) : Nat → Bool
  | 0 => false
  | i + 1 =>
    if file.getD i 0 = 10 then false
    else seAt file i ||
      ((file.getD i 0 == 47) &&
        ((file.getD (i + 1) 0 == 47) || (file.getD (i + 1) 0 == 42)) &&
        !lwAt file i && !seAt file i)

/-- Position `i` is recorded in the ender set: a comment marker starts there,
the line so far has non-whitespace content directly before it (the
whitespace flag is off, which at position 0 holds vacuously), and no marker
was already recorded for the line. -/
def enHit (file : List Nat) (i : Nat) : Bool :=
  (file.getD i 0 == 47) &&
    ((file.getD (i + 1) 0 == 47) || (file.getD (i + 1) 0 == 42)) &&
    !lwAt file i && !seAt file i

/-- Position `i` is recorded in the separ set: a comment marker or the
package-keyword pair starts there and the cleanline flag is on. -/
def spHit (file : List Nat) (i : Nat) : Bool :=
  ((file.getD i 0 == 47) &&
    ((file.getD (i + 1) 0 == 47) || (file.getD (i + 1) 0 == 42)) ||
    (file.getD i 0 == 112) && (file.getD (i + 1) 0 == 97)) && clAt file i

/-! Theorems. -/

theorem O_lt (n : Nat) : O n < W := by
  unfold O
  exact Nat.mod_lt _ (by decide)

theorem O_mod (n : Nat) : O n % W = O n := Nat.mod_eq_of_lt (O_lt n)

theorem bind_def {α β : Type} : (Bind.bind : M α → (α → M β) → M β) = Mbind := rfl

theorem pure_def {α : Type} : (Pure.pure : α → M α) = Mpure := rfl

theorem SP_Mpure {α : Type} (a : α) : SPdef (Mpure a) := by
  intro s out b s' out' h
  simp only [Mpure] at h
  injection h with h1 h2 h3
  exact h2.symm

theorem SP_Mbind {α β : Type} {m : M α} {f : α → M β}
    (h1 : SPdef m) (h2 : ∀ a, SPdef (f a)) : SPdef (Mbind m f) := by
  intro s out b s' out' h
  unfold Mbind at h
  cases he : m s out with
  | ok a s1 out1 =>
      rw [he] at h
      exact (h2 a s1 out1 b s' out' h).trans (h1 s out a s1 out1 he)
  | panic => rw [he] at h; cases h
  | fuelout => rw [he] at h; cases h

theorem SP_bind {α β : Type} {m : M α} {f : α → M β}
    (h1 : SPdef m) (h2 : ∀ a, SPdef (f a)) : SPdef (m >>= f) := SP_Mbind h1 h2

theorem SP_ite {α : Type} {c : Prop} [Decidable c] {a b : M α}
    (h1 : SPdef a) (h2 : SPdef b) : SPdef (if c then a else b) := by
  split
  · exact h1
  · exact h2

theorem SP_mval (k : Nat) : SPdef (mval k) := by
  intro s out a s' out' h
  simp only [mval] at h
  injection h with h1 h2 h3
  exact h2.symm

theorem SP_mpoke (k : Nat) : SPdef (mpoke k) := by
  intro s out a s' out' h
  simp only [mpoke] at h
  injection h with h1 h2 h3
  exact h2.symm

theorem SP_pr (t : String) : SPdef (pr t) := by
  intro s out a s' out' h
  simp only [pr] at h
  injection h with h1 h2 h3
  exact h2.symm

theorem SP_mpanic {α : Type} : SPdef (mpanic : M α) := by
  intro s out a s' out' h
  cases h

theorem SP_mhead (v : Option Val) : SPdef (mhead v) := by
  unfold mhead
  split
  · exact SP_mpanic
  · exact SP_Mpure _

theorem SP_mWhich (v : Option Val) : SPdef (mWhich v) := by
  unfold mWhich
  split
  · exact SP_mpanic
  · exact SP_Mpure _

theorem SP_misFam (v : Option Val) (f : Fam) : SPdef (misFam v f) := by
  unfold misFam
  exact SP_ite (SP_Mpure _) (SP_bind (SP_mhead v) fun _ => SP_Mpure _)

theorem SP_misNotFam (v : Option Val) (f : Fam) : SPdef (misNotFam v f) := by
  unfold misNotFam
  exact SP_ite (SP_Mpure _) (SP_bind (SP_mhead v) fun _ => SP_Mpure _)

theorem SP_mnilOrFam (v : Option Val) (f : Fam) : SPdef (mnilOrFam v f) := by
  unfold mnilOrFam
  exact SP_ite (SP_Mpure _) (SP_bind (SP_mhead v) fun _ => SP_Mpure _)

theorem SP_mnilOrNotFam (v : Option Val) (f : Fam) : SPdef (mnilOrNotFam v f) := by
  unfold mnilOrNotFam
  exact SP_ite (SP_Mpure _) (SP_bind (SP_mhead v) fun _ => SP_Mpure _)

theorem SP_introCommentRow (aoi : String) (v : Option Val) :
    SPdef (introCommentRow aoi v) := by
  unfold introCommentRow
  repeat
    first
    | exact SP_Mpure _
    | exact SP_pr _
    | exact SP_mval _
    | exact SP_mpoke _
    | exact SP_mpanic
    | exact SP_mhead _
    | exact SP_mWhich _
    | exact SP_misFam _ _
    | exact SP_misNotFam _ _
    | exact SP_mnilOrFam _ _
    | exact SP_mnilOrNotFam _ _
    | apply SP_Mbind
    | apply SP_bind
    | apply SP_ite
    | intro x
    | split

set_option maxRecDepth 2048 in
set_option maxHeartbeats 1600000 in
theorem SP_introPackageDef (aoi : String) (v : Option Val) :
    SPdef (introPackageDef aoi v) := by
  unfold introPackageDef
  repeat
    first
    | exact SP_Mpure _
    | exact SP_pr _
    | exact SP_mval _
    | exact SP_mpoke _
    | exact SP_mpanic
    | exact SP_mhead _
    | exact SP_mWhich _
    | exact SP_misFam _ _
    | exact SP_misNotFam _ _
    | exact SP_mnilOrFam _ _
    | exact SP_mnilOrNotFam _ _
    | apply SP_Mbind
    | apply SP_bind
    | apply SP_ite
    | intro x
    | split

set_option maxRecDepth 2048 in
set_option maxHeartbeats 1600000 in
theorem SP_introImportStmt (it par : Nat) (aoi : String) :
    SPdef (introImportStmt it par aoi) := by
  unfold introImportStmt
  repeat
    first
    | exact SP_Mpure _
    | exact SP_pr _
    | exact SP_mval _
    | exact SP_mpoke _
    | exact SP_mpanic
    | exact SP_mhead _
    | exact SP_mWhich _
    | exact SP_misFam _ _
    | exact SP_misNotFam _ _
    | exact SP_mnilOrFam _ _
    | exact SP_mnilOrNotFam _ _
    | apply SP_Mbind
    | apply SP_bind
    | apply SP_ite
    | intro x
    | split

set_option maxRecDepth 2048 in
set_option maxHeartbeats 1600000 in
theorem SP_introImportsDef :
    SPdef (introImportsDef) := by
  unfold introImportsDef
  repeat
    first
    | exact SP_Mpure _
    | exact SP_pr _
    | exact SP_mval _
    | exact SP_mpoke _
    | exact SP_mpanic
    | exact SP_mhead _
    | exact SP_mWhich _
    | exact SP_misFam _ _
    | exact SP_misNotFam _ _
    | exact SP_mnilOrFam _ _
    | exact SP_mnilOrNotFam _ _
    | apply SP_Mbind
    | apply SP_bind
    | apply SP_ite
    | intro x
    | split

set_option maxRecDepth 2048 in
set_option maxHeartbeats 1600000 in
theorem SP_introToplevFunc (v : Option Val) :
    SPdef (introToplevFunc v) := by
  unfold introToplevFunc
  repeat
    first
    | exact SP_Mpure _
    | exact SP_pr _
    | exact SP_mval _
    | exact SP_mpoke _
    | exact SP_mpanic
    | exact SP_mhead _
    | exact SP_mWhich _
    | exact SP_misFam _ _
    | exact SP_misNotFam _ _
    | exact SP_mnilOrFam _ _
    | exact SP_mnilOrNotFam _ _
    | apply SP_Mbind
    | apply SP_bind
    | apply SP_ite
    | intro x
    | split

set_option maxRecDepth 2048 in
set_option maxHeartbeats 1600000 in
theorem SP_introBlocOfCode (v : Option Val) :
    SPdef (introBlocOfCode v) := by
  unfold introBlocOfCode
  repeat
    first
    | exact SP_Mpure _
    | exact SP_pr _
    | exact SP_mval _
    | exact SP_mpoke _
    | exact SP_mpanic
    | exact SP_mhead _
    | exact SP_mWhich _
    | exact SP_misFam _ _
    | exact SP_misNotFam _ _
    | exact SP_mnilOrFam _ _
    | exact SP_mnilOrNotFam _ _
    | apply SP_Mbind
    | apply SP_bind
    | apply SP_ite
    | intro x
    | split

set_option maxRecDepth 2048 in
set_option maxHeartbeats 1600000 in
theorem SP_introTypDefStmt (aoi : String) (v : Option Val) :
    SPdef (introTypDefStmt aoi v) := by
  unfold introTypDefStmt
  repeat
    first
    | exact SP_Mpure _
    | exact SP_pr _
    | exact SP_mval _
    | exact SP_mpoke _
    | exact SP_mpanic
    | exact SP_mhead _
    | exact SP_mWhich _
    | exact SP_misFam _ _
    | exact SP_misNotFam _ _
    | exact SP_mnilOrFam _ _
    | exact SP_mnilOrNotFam _ _
    | apply SP_Mbind
    | apply SP_bind
    | apply SP_ite
    | intro x
    | split

set_option maxRecDepth 2048 in
set_option maxHeartbeats 1600000 in
theorem SP_introStructType (it : Nat) :
    SPdef (introStructType it) := by
  unfold introStructType
  repeat
    first
    | exact SP_Mpure _
    | exact SP_pr _
    | exact SP_mval _
    | exact SP_mpoke _
    | exact SP_mpanic
    | exact SP_mhead _
    | exact SP_mWhich _
    | exact SP_misFam _ _
    | exact SP_misNotFam _ _
    | exact SP_mnilOrFam _ _
    | exact SP_mnilOrNotFam _ _
    | apply SP_Mbind
    | apply SP_bind
    | apply SP_ite
    | intro x
    | split

set_option maxRecDepth 2048 in
set_option maxHeartbeats 1600000 in
theorem SP_introIfceTypExp (it : Nat) :
    SPdef (introIfceTypExp it) := by
  unfold introIfceTypExp
  repeat
    first
    | exact SP_Mpure _
    | exact SP_pr _
    | exact SP_mval _
    | exact SP_mpoke _
    | exact SP_mpanic
    | exact SP_mhead _
    | exact SP_mWhich _
    | exact SP_misFam _ _
    | exact SP_misNotFam _ _
    | exact SP_mnilOrFam _ _
    | exact SP_mnilOrNotFam _ _
    | apply SP_Mbind
    | apply SP_bind
    | apply SP_ite
    | intro x
    | split

set_option maxRecDepth 2048 in
set_option maxHeartbeats 1600000 in
theorem SP_introGoDferStmt (v : Option Val) :
    SPdef (introGoDferStmt v) := by
  unfold introGoDferStmt
  repeat
    first
    | exact SP_Mpure _
    | exact SP_pr _
    | exact SP_mval _
    | exact SP_mpoke _
    | exact SP_mpanic
    | exact SP_mhead _
    | exact SP_mWhich _
    | exact SP_misFam _ _
    | exact SP_misNotFam _ _
    | exact SP_mnilOrFam _ _
    | exact SP_mnilOrNotFam _ _
    | apply SP_Mbind
    | apply SP_bind
    | apply SP_ite
    | intro x
    | split

set_option maxRecDepth 2048 in
set_option maxHeartbeats 1600000 in
theorem SP_introBranchStmt (v : Option Val) :
    SPdef (introBranchStmt v) := by
  unfold introBranchStmt
  repeat
    first
    | exact SP_Mpure _
    | exact SP_pr _
    | exact SP_mval _
    | exact SP_mpoke _
    | exact SP_mpanic
    | exact SP_mhead _
    | exact SP_mWhich _
    | exact SP_misFam _ _
    | exact SP_misNotFam _ _
    | exact SP_mnilOrFam _ _
    | exact SP_mnilOrNotFam _ _
    | apply SP_Mbind
    | apply SP_bind
    | apply SP_ite
    | intro x
    | split

set_option maxRecDepth 2048 in
set_option maxHeartbeats 1600000 in
theorem SP_introExpression (v : Option Val) :
    SPdef (introExpression v) := by
  unfold introExpression
  repeat
    first
    | exact SP_Mpure _
    | exact SP_pr _
    | exact SP_mval _
    | exact SP_mpoke _
    | exact SP_mpanic
    | exact SP_mhead _
    | exact SP_mWhich _
    | exact SP_misFam _ _
    | exact SP_misNotFam _ _
    | exact SP_mnilOrFam _ _
    | exact SP_mnilOrNotFam _ _
    | apply SP_Mbind
    | apply SP_bind
    | apply SP_ite
    | intro x
    | split

set_option maxRecDepth 2048 in
set_option maxHeartbeats 1600000 in
theorem SP_introVarDefStmt (it : Nat) (v : Option Val) :
    SPdef (introVarDefStmt it v) := by
  unfold introVarDefStmt
  repeat
    first
    | exact SP_Mpure _
    | exact SP_pr _
    | exact SP_mval _
    | exact SP_mpoke _
    | exact SP_mpanic
    | exact SP_mhead _
    | exact SP_mWhich _
    | exact SP_misFam _ _
    | exact SP_misNotFam _ _
    | exact SP_mnilOrFam _ _
    | exact SP_mnilOrNotFam _ _
    | apply SP_Mbind
    | apply SP_bind
    | apply SP_ite
    | intro x
    | split

set_option maxRecDepth 2048 in
set_option maxHeartbeats 1600000 in
theorem SP_introLblGotoCnt (v : Option Val) :
    SPdef (introLblGotoCnt v) := by
  unfold introLblGotoCnt
  repeat
    first
    | exact SP_Mpure _
    | exact SP_pr _
    | exact SP_mval _
    | exact SP_mpoke _
    | exact SP_mpanic
    | exact SP_mhead _
    | exact SP_mWhich _
    | exact SP_misFam _ _
    | exact SP_misNotFam _ _
    | exact SP_mnilOrFam _ _
    | exact SP_mnilOrNotFam _ _
    | apply SP_Mbind
    | apply SP_bind
    | apply SP_ite
    | intro x
    | split

set_option maxRecDepth 2048 in
set_option maxHeartbeats 1600000 in
theorem SP_introClosureExp (it : Nat) (v : Option Val) :
    SPdef (introClosureExp it v) := by
  unfold introClosureExp
  repeat
    first
    | exact SP_Mpure _
    | exact SP_pr _
    | exact SP_mval _
    | exact SP_mpoke _
    | exact SP_mpanic
    | exact SP_mhead _
    | exact SP_mWhich _
    | exact SP_misFam _ _
    | exact SP_misNotFam _ _
    | exact SP_mnilOrFam _ _
    | exact SP_mnilOrNotFam _ _
    | apply SP_Mbind
    | apply SP_bind
    | apply SP_ite
    | intro x
    | split

set_option maxRecDepth 2048 in
set_option maxHeartbeats 1600000 in
theorem SP_introTypedIdent (it : Nat) (v : Option Val) :
    SPdef (introTypedIdent it v) := by
  unfold introTypedIdent
  repeat
    first
    | exact SP_Mpure _
    | exact SP_pr _
    | exact SP_mval _
    | exact SP_mpoke _
    | exact SP_mpanic
    | exact SP_mhead _
    | exact SP_mWhich _
    | exact SP_misFam _ _
    | exact SP_misNotFam _ _
    | exact SP_mnilOrFam _ _
    | exact SP_mnilOrNotFam _ _
    | apply SP_Mbind
    | apply SP_bind
    | apply SP_ite
    | intro x
    | split

set_option maxRecDepth 2048 in
set_option maxHeartbeats 1600000 in
theorem SP_postImportsDef (i : Nat) :
    SPdef (postImportsDef i) := by
  unfold postImportsDef
  repeat
    first
    | exact SP_Mpure _
    | exact SP_pr _
    | exact SP_mval _
    | exact SP_mpoke _
    | exact SP_mpanic
    | exact SP_mhead _
    | exact SP_mWhich _
    | exact SP_misFam _ _
    | exact SP_misNotFam _ _
    | exact SP_mnilOrFam _ _
    | exact SP_mnilOrNotFam _ _
    | apply SP_Mbind
    | apply SP_bind
    | apply SP_ite
    | intro x
    | split

set_option maxRecDepth 2048 in
set_option maxHeartbeats 1600000 in
theorem SP_postToplevFunc (it : Nat) (aoi : String) (i : Nat) (v : Option Val) :
    SPdef (postToplevFunc it aoi i v) := by
  unfold postToplevFunc
  repeat
    first
    | exact SP_Mpure _
    | exact SP_pr _
    | exact SP_mval _
    | exact SP_mpoke _
    | exact SP_mpanic
    | exact SP_mhead _
    | exact SP_mWhich _
    | exact SP_misFam _ _
    | exact SP_misNotFam _ _
    | exact SP_mnilOrFam _ _
    | exact SP_mnilOrNotFam _ _
    | apply SP_Mbind
    | apply SP_bind
    | apply SP_ite
    | intro x
    | split

set_option maxRecDepth 2048 in
set_option maxHeartbeats 1600000 in
theorem SP_postTypedIdent (it : Nat) (i : Nat) (v : Option Val) :
    SPdef (postTypedIdent it i v) := by
  unfold postTypedIdent
  repeat
    first
    | exact SP_Mpure _
    | exact SP_pr _
    | exact SP_mval _
    | exact SP_mpoke _
    | exact SP_mpanic
    | exact SP_mhead _
    | exact SP_mWhich _
    | exact SP_misFam _ _
    | exact SP_misNotFam _ _
    | exact SP_mnilOrFam _ _
    | exact SP_mnilOrNotFam _ _
    | apply SP_Mbind
    | apply SP_bind
    | apply SP_ite
    | intro x
    | split

set_option maxRecDepth 2048 in
set_option maxHeartbeats 1600000 in
theorem SP_postBlocOfCode (i : Nat) (v : Option Val) :
    SPdef (postBlocOfCode i v) := by
  unfold postBlocOfCode
  repeat
    first
    | exact SP_Mpure _
    | exact SP_pr _
    | exact SP_mval _
    | exact SP_mpoke _
    | exact SP_mpanic
    | exact SP_mhead _
    | exact SP_mWhich _
    | exact SP_misFam _ _
    | exact SP_misNotFam _ _
    | exact SP_mnilOrFam _ _
    | exact SP_mnilOrNotFam _ _
    | apply SP_Mbind
    | apply SP_bind
    | apply SP_ite
    | intro x
    | split

set_option maxRecDepth 2048 in
set_option maxHeartbeats 1600000 in
theorem SP_postExprSepMid (op i2 : Nat) : SPdef (postExprSepMid op i2) := by
  unfold postExprSepMid
  repeat
    first
    | exact SP_Mpure _
    | exact SP_pr _
    | apply SP_ite

set_option maxRecDepth 2048 in
set_option maxHeartbeats 1600000 in
theorem SP_postExprSepOne (op : Nat) : SPdef (postExprSepOne op) := by
  unfold postExprSepOne
  repeat
    first
    | exact SP_Mpure _
    | exact SP_pr _
    | apply SP_ite

set_option maxRecDepth 2048 in
set_option maxHeartbeats 1600000 in
theorem SP_postExprSepEnd (op l : Nat) : SPdef (postExprSepEnd op l) := by
  unfold postExprSepEnd
  repeat
    first
    | exact SP_Mpure _
    | exact SP_pr _
    | apply SP_ite

set_option maxRecDepth 2048 in
set_option maxHeartbeats 1600000 in
theorem SP_postExpression (it : Nat) (i : Nat) (v : Option Val) :
    SPdef (postExpression it i v) := by
  unfold postExpression
  repeat
    first
    | exact SP_Mpure _
    | exact SP_pr _
    | exact SP_mval _
    | exact SP_mWhich _
    | exact SP_postExprSepMid _ _
    | exact SP_postExprSepOne _
    | exact SP_postExprSepEnd _ _
    | apply SP_Mbind
    | apply SP_bind
    | apply SP_ite
    | intro x
    | split

set_option maxHeartbeats 1600000 in
theorem SP_postReturnStmt (it : Nat) (i : Nat) :
    SPdef (postReturnStmt it i) := by
  unfold postReturnStmt
  repeat
    first
    | exact SP_Mpure _
    | exact SP_pr _
    | exact SP_mval _
    | exact SP_mpoke _
    | exact SP_mpanic
    | exact SP_mhead _
    | exact SP_mWhich _
    | exact SP_misFam _ _
    | exact SP_misNotFam _ _
    | exact SP_mnilOrFam _ _
    | exact SP_mnilOrNotFam _ _
    | apply SP_Mbind
    | apply SP_bind
    | apply SP_ite
    | intro x
    | split

set_option maxRecDepth 2048 in
set_option maxHeartbeats 1600000 in
theorem SP_postIncDecStmt (it : Nat) (aoi : String) (i : Nat) (v : Option Val) :
    SPdef (postIncDecStmt it aoi i v) := by
  unfold postIncDecStmt
  repeat
    first
    | exact SP_Mpure _
    | exact SP_pr _
    | exact SP_mval _
    | exact SP_mpoke _
    | exact SP_mpanic
    | exact SP_mhead _
    | exact SP_mWhich _
    | exact SP_misFam _ _
    | exact SP_misNotFam _ _
    | exact SP_mnilOrFam _ _
    | exact SP_mnilOrNotFam _ _
    | apply SP_Mbind
    | apply SP_bind
    | apply SP_ite
    | intro x
    | split

set_option maxRecDepth 2048 in
set_option maxHeartbeats 1600000 in
theorem SP_postAssignStmt (it : Nat) (i : Nat) (v : Option Val) :
    SPdef (postAssignStmt it i v) := by
  unfold postAssignStmt
  repeat
    first
    | exact SP_Mpure _
    | exact SP_pr _
    | exact SP_mval _
    | exact SP_mpoke _
    | exact SP_mpanic
    | exact SP_mhead _
    | exact SP_mWhich _
    | exact SP_misFam _ _
    | exact SP_misNotFam _ _
    | exact SP_mnilOrFam _ _
    | exact SP_mnilOrNotFam _ _
    | apply SP_Mbind
    | apply SP_bind
    | apply SP_ite
    | intro x
    | split

set_option maxRecDepth 2048 in
set_option maxHeartbeats 1600000 in
theorem SP_postRootOfType (it : Nat) (aoi : String) (i : Nat) :
    SPdef (postRootOfType it aoi i) := by
  unfold postRootOfType
  repeat
    first
    | exact SP_Mpure _
    | exact SP_pr _
    | exact SP_mval _
    | exact SP_mpoke _
    | exact SP_mpanic
    | exact SP_mhead _
    | exact SP_mWhich _
    | exact SP_misFam _ _
    | exact SP_misNotFam _ _
    | exact SP_mnilOrFam _ _
    | exact SP_mnilOrNotFam _ _
    | apply SP_Mbind
    | apply SP_bind
    | apply SP_ite
    | intro x
    | split

set_option maxRecDepth 2048 in
set_option maxHeartbeats 1600000 in
theorem SP_postLblGotoCnt (aoi : String) (i : Nat) (v : Option Val) :
    SPdef (postLblGotoCnt aoi i v) := by
  unfold postLblGotoCnt
  repeat
    first
    | exact SP_Mpure _
    | exact SP_pr _
    | exact SP_mval _
    | exact SP_mpoke _
    | exact SP_mpanic
    | exact SP_mhead _
    | exact SP_mWhich _
    | exact SP_misFam _ _
    | exact SP_misNotFam _ _
    | exact SP_mnilOrFam _ _
    | exact SP_mnilOrNotFam _ _
    | apply SP_Mbind
    | apply SP_bind
    | apply SP_ite
    | intro x
    | split

set_option maxRecDepth 2048 in
set_option maxHeartbeats 1600000 in
theorem SP_postVarDefStmt (it : Nat) (i : Nat) :
    SPdef (postVarDefStmt it i) := by
  unfold postVarDefStmt
  repeat
    first
    | exact SP_Mpure _
    | exact SP_pr _
    | exact SP_mval _
    | exact SP_mpoke _
    | exact SP_mpanic
    | exact SP_mhead _
    | exact SP_mWhich _
    | exact SP_misFam _ _
    | exact SP_misNotFam _ _
    | exact SP_mnilOrFam _ _
    | exact SP_mnilOrNotFam _ _
    | apply SP_Mbind
    | apply SP_bind
    | apply SP_ite
    | intro x
    | split

set_option maxRecDepth 2048 in
set_option maxHeartbeats 1600000 in
theorem SP_postFileMatter (it : Nat) (i : Nat) :
    SPdef (postFileMatter it i) := by
  unfold postFileMatter
  repeat
    first
    | exact SP_Mpure _
    | exact SP_pr _
    | exact SP_mval _
    | exact SP_mpoke _
    | exact SP_mpanic
    | exact SP_mhead _
    | exact SP_mWhich _
    | exact SP_misFam _ _
    | exact SP_misNotFam _ _
    | exact SP_mnilOrFam _ _
    | exact SP_mnilOrNotFam _ _
    | apply SP_Mbind
    | apply SP_bind
    | apply SP_ite
    | intro x
    | split

set_option maxRecDepth 2048 in
set_option maxHeartbeats 1600000 in
theorem SP_postClosureExp (it : Nat) (i : Nat) (v : Option Val) :
    SPdef (postClosureExp it i v) := by
  unfold postClosureExp
  repeat
    first
    | exact SP_Mpure _
    | exact SP_pr _
    | exact SP_mval _
    | exact SP_mpoke _
    | exact SP_mpanic
    | exact SP_mhead _
    | exact SP_mWhich _
    | exact SP_misFam _ _
    | exact SP_misNotFam _ _
    | exact SP_mnilOrFam _ _
    | exact SP_mnilOrNotFam _ _
    | apply SP_Mbind
    | apply SP_bind
    | apply SP_ite
    | intro x
    | split

set_option maxRecDepth 2048 in
set_option maxHeartbeats 1600000 in
theorem SP_postIfceMethod (it : Nat) (i : Nat) (v : Option Val) :
    SPdef (postIfceMethod it i v) := by
  unfold postIfceMethod
  repeat
    first
    | exact SP_Mpure _
    | exact SP_pr _
    | exact SP_mval _
    | exact SP_mpoke _
    | exact SP_mpanic
    | exact SP_mhead _
    | exact SP_mWhich _
    | exact SP_misFam _ _
    | exact SP_misNotFam _ _
    | exact SP_mnilOrFam _ _
    | exact SP_mnilOrNotFam _ _
    | apply SP_Mbind
    | apply SP_bind
    | apply SP_ite
    | intro x
    | split

set_option maxRecDepth 4096 in
set_option maxHeartbeats 1000000 in
theorem SP_codeIntro (it par : Nat) (aoi : String) : SPdef (codeIntro it par aoi) := by
  unfold codeIntro
  refine SP_Mbind (SP_mval _) fun v => ?_
  refine SP_ite (SP_Mpure _) ?_
  refine SP_Mbind (SP_mhead _) fun hf => ?_
  rcases hf with _ | f
  · exact SP_Mpure _
  · cases f
    all_goals
      first
      | exact SP_Mpure _
      | exact SP_pr _
      | exact SP_introCommentRow _ _
      | exact SP_introPackageDef _ _
      | exact SP_introImportStmt _ _ _
      | exact SP_introImportsDef
      | exact SP_introToplevFunc _
      | exact SP_introBlocOfCode _
      | exact SP_introTypDefStmt _ _
      | exact SP_introStructType _
      | exact SP_introIfceTypExp _
      | exact SP_introGoDferStmt _
      | exact SP_introBranchStmt _
      | exact SP_introExpression _
      | exact SP_introVarDefStmt _ _
      | exact SP_introLblGotoCnt _
      | exact SP_introClosureExp _ _
      | exact SP_introTypedIdent _ _

set_option maxRecDepth 4096 in
set_option maxHeartbeats 1000000 in
theorem SP_codePost (it par : Nat) (aoi : String) (i : Nat) :
    SPdef (codePost it par aoi i) := by
  unfold codePost
  refine SP_Mbind (SP_mval _) fun v => ?_
  refine SP_ite (SP_Mpure _) ?_
  refine SP_Mbind (SP_mhead _) fun hf => ?_
  rcases hf with _ | f
  · exact SP_Mpure _
  · cases f
    all_goals
      first
      | exact SP_Mpure _
      | exact SP_ite (SP_pr _) (SP_Mpure _)
      | exact SP_ite (SP_pr _) (SP_pr _)
      | exact SP_postImportsDef _
      | exact SP_postToplevFunc _ _ _ _
      | exact SP_postTypedIdent _ _ _
      | exact SP_postBlocOfCode _ _
      | exact SP_postExpression _ _ _
      | exact SP_postReturnStmt _ _
      | exact SP_postIncDecStmt _ _ _ _
      | exact SP_postAssignStmt _ _ _
      | exact SP_postRootOfType _ _ _
      | exact SP_postLblGotoCnt _ _ _
      | exact SP_postVarDefStmt _ _
      | exact SP_postFileMatter _ _
      | exact SP_postClosureExp _ _ _
      | exact SP_postIfceMethod _ _ _

theorem SP_codeLoop (child : Nat → Nat → M Unit)
    (hc : ∀ a b, SPdef (child a b)) (it par : Nat) (aoi : String) :
    ∀ f i, SPdef (codeLoop child it par aoi f i) := by
  intro f
  induction f with
  | zero =>
      intro i s out a s' out' h
      cases h
  | succ f ih =>
      intro i
      unfold codeLoop
      refine SP_ite ?_ (SP_Mpure _)
      refine SP_Mbind (SP_mpoke _) fun b => ?_
      refine SP_ite ?_ (SP_codePost _ _ _ _)
      exact SP_Mbind (hc _ _) fun _ =>
        SP_Mbind (SP_codePost _ _ _ _) fun _ => ih _

theorem SP_Code : ∀ fuel it par, SPdef (Code fuel it par) := by
  intro fuel
  induction fuel with
  | zero =>
      intro it par s out a s' out' h
      cases h
  | succ f ih =>
      intro it par
      unfold Code
      refine SP_Mbind (SP_mval _) fun c0 => ?_
      exact SP_Mbind (SP_codeIntro _ _ _) fun _ =>
        SP_codeLoop _ (fun a b => ih a b) _ _ _ _ _

theorem codeLoop_eq_runWalk (child : Nat → Nat → M Unit)
    (hc : ∀ a b, SPdef (child a b)) (it par : Nat) (aoi : String) (s : Store) :
    ∀ (n i f : Nat) (out : List String),
      (∀ j, j < n → Poke s ((O it + (i + j)) % W) = true) →
      Poke s ((O it + (i + n)) % W) = false →
      i + n < uint64big →
      n + 1 ≤ f →
      codeLoop child it par aoi f i s out = runWalk child it par aoi i n s out := by
  intro n
  induction n with
  | zero =>
      intro i f out hrun hstop hlt hf
      match f, hf with
      | f + 1, _ =>
        unfold codeLoop runWalk
        rw [if_pos (by omega : i < uint64big)]
        simp only [bind_def, pure_def, Mbind, mpoke]
        simp only [Nat.add_zero] at hstop
        rw [hstop]
        simp
  | succ n ih =>
      intro i f out hrun hstop hlt hf
      match f, hf with
      | f + 1, _ =>
        unfold codeLoop runWalk
        rw [if_pos (by omega : i < uint64big)]
        simp only [bind_def, pure_def, Mbind, mpoke]
        have h0 : Poke s ((O it + i) % W) = true := by
          have := hrun 0 (by omega)
          simpa using this
        rw [h0]
        simp only [reduceIte]
        simp only [Mbind]
        cases hch : child ((O it + i) % W) it s out with
        | panic => rfl
        | fuelout => rfl
        | ok x s1 out1 =>
            have hs1 : s1 = s := hc _ _ s out x s1 out1 hch
            rw [hs1]
            simp only []
            cases hpost : codePost it par aoi i s out1 with
            | panic => rfl
            | fuelout => rfl
            | ok y s2 out2 =>
                have hs2 : s2 = s := SP_codePost it par aoi i s out1 y s2 out2 hpost
                rw [hs2]
                simp only []
                exact ih (i + 1) f out2
                  (fun j hj => by
                    have := hrun (j + 1) (by omega)
                    rw [show i + 1 + j = i + (j + 1) by omega]
                    exact this)
                  (by rw [show i + 1 + n = i + (n + 1) by omega]; exact hstop)
                  (by omega) (by omega)

/-- C1: the walk over the children of `it` renders exactly the contiguous
run of present keys from index 0: it visits children at O(it)+0, O(it)+1, ...
in increasing order and stops at the first absent key, with a present nil
payload continuing the run. -/
theorem Code_renders_run (F it par : Nat) (s : Store) (out : List String) (N : Nat)
    (hrun : ∀ j, j < N → Poke s ((O it + j) % W) = true)
    (hstop : Poke s ((O it + N) % W) = false)
    (hN : N < uint64big) (hF : N ≤ F) :
    Code (F + 1) it par s out =
      Mbind (codeIntro it par (gStr (deref s (O it))))
        (fun _ => runWalk (Code F) it par (gStr (deref s (O it))) 0 N) s out := by
  unfold Code
  simp only [bind_def, pure_def, Mbind, mval]
  cases hin : codeIntro it par (gStr (deref s (O it))) s out with
  | panic => rfl
  | fuelout => rfl
  | ok x s1 out1 =>
      have hs1 : s1 = s := SP_codeIntro it par _ s out x s1 out1 hin
      rw [hs1]
      simp only []
      exact codeLoop_eq_runWalk (Code F) (fun a b => SP_Code F a b) it par _ s N 0 (F + 1)
        out1 (by simpa using hrun) (by simpa using hstop) (by omega) (by omega)

theorem namedNode_decode (fam : Fam) (kind : Nat) (h : kind + 1 ≤ famCap fam) :
    namedNode fam kind = some (.node fam (kind + 1) (famCap fam)) ∧
    Which (namedNode fam kind) = some (some fam) ∧
    gLen (namedNode fam kind) - 1 = kind := by
  have he : namedNode fam kind = some (.node fam (kind + 1) (famCap fam)) := by
    unfold namedNode
    rw [if_pos h]
  refine ⟨he, ?_, ?_⟩
  · rw [he]
    simp [Which, gNil, headFam]
  · rw [he]
    simp [gLen]

/-- C2 (amended): decoding inverts construction, for in-range arguments: each constructor
yields a record of its own family (recovered by `Which` from buffer
identity), with variant `len - 1` recovering the kind argument, and for the
three Categories with a Slots axis, `cap - TotalCount` recovering the count
argument.  Categories built by two-index slicing keep the family buffer's
capacity.  `Which` is nil exactly on raw-text leaves (nonempty). -/
theorem constructors_decode :
    (∀ kind elems : Nat, kind + 1 ≤ elems + 38 → elems + 38 ≤ 1000000 →
      ExpressionNode kind elems = some (.node .Expression (kind + 1) (elems + 38)) ∧
      Which (ExpressionNode kind elems) = some (some .Expression) ∧
      gLen (ExpressionNode kind elems) - 1 = kind ∧
      gCap (ExpressionNode kind elems) - 38 = elems) ∧
    (∀ kind helems : Nat, kind + 1 ≤ helems + 13 → helems + 13 ≤ 999984 →
      BlocOfCodeNode kind helems = some (.node .BlocOfCode (kind + 1) (helems + 13)) ∧
      Which (BlocOfCodeNode kind helems) = some (some .BlocOfCode) ∧
      gLen (BlocOfCodeNode kind helems) - 1 = kind ∧
      gCap (BlocOfCodeNode kind helems) - 13 = helems) ∧
    (∀ kind elems : Nat, kind + 1 ≤ elems + 19 → elems + 19 ≤ 999952 →
      AssignStmtNode kind elems = some (.node .AssignStmt (kind + 1) (elems + 19)) ∧
      Which (AssignStmtNode kind elems) = some (some .AssignStmt) ∧
      gLen (AssignStmtNode kind elems) - 1 = kind ∧
      gCap (AssignStmtNode kind elems) - 19 = elems) ∧
    (∀ (recv : Bool) (argc : Nat), argc + 2 ≤ 999968 →
      ToplevFuncNode recv argc =
        some (.node .ToplevFunc ((if recv then 1 else 0) + 1)
          (argc + (if recv then 1 else 0) + 1)) ∧
      Which (ToplevFuncNode recv argc) = some (some .ToplevFunc) ∧
      gLen (ToplevFuncNode recv argc) - 1 = (if recv then 1 else 0)) ∧
    (∀ p : Nat, p + 1 ≤ 999936 →
      ClosureExpNode p = some (.node .ClosureExp (p + 1) 999936) ∧
      Which (ClosureExpNode p) = some (some .ClosureExp) ∧
      gLen (ClosureExpNode p) - 1 = p) ∧
    (∀ kind : Nat, kind + 1 ≤ 10 →
      BranchStmtNode kind = some (.node .BranchStmt (kind + 1) 10) ∧
      Which (BranchStmtNode kind) = some (some .BranchStmt) ∧
      gLen (BranchStmtNode kind) - 1 = kind) ∧
    (∀ kind : Nat, kind + 1 ≤ 10 →
      IncDecStmtNode kind = some (.node .IncDecStmt (kind + 1) 10) ∧
      Which (IncDecStmtNode kind) = some (some .IncDecStmt) ∧
      gLen (IncDecStmtNode kind) - 1 = kind) ∧
    (∀ kind : Nat, kind + 1 ≤ 10 →
      GoDferStmtNode kind = some (.node .GoDferStmt (kind + 1) 10) ∧
      Which (GoDferStmtNode kind) = some (some .GoDferStmt) ∧
      gLen (GoDferStmtNode kind) - 1 = kind) ∧
    (∀ kind : Nat, kind + 1 ≤ 10 →
      LblGotoCntNode kind = some (.node .LblGotoCnt (kind + 1) 10) ∧
      Which (LblGotoCntNode kind) = some (some .LblGotoCnt) ∧
      gLen (LblGotoCntNode kind) - 1 = kind) ∧
    (∀ kind : Nat, kind + 1 ≤ 10 →
      VarDefStmtNode kind = some (.node .VarDefStmt (kind + 1) 10) ∧
      Which (VarDefStmtNode kind) = some (some .VarDefStmt) ∧
      gLen (VarDefStmtNode kind) - 1 = kind) ∧
    (∀ kind : Nat, kind + 1 ≤ 10 →
      TypDefStmtNode kind = some (.node .TypDefStmt (kind + 1) 10) ∧
      Which (TypDefStmtNode kind) = some (some .TypDefStmt) ∧
      gLen (TypDefStmtNode kind) - 1 = kind) ∧
    (∀ t : String, t.length ≠ 0 → Which (some (.str t)) = some none) := by
  have hW : ∀ x : Nat, x ≤ 1000000 → x % W = x := by
    intro x hx
    apply Nat.mod_eq_of_lt
    unfold W
    omega
  have hInt : ∀ x : Nat, x ≤ 1000000 → intOfU64 x = (x : Int) := by
    intro x hx
    unfold intOfU64
    rw [if_pos (by omega)]
  have hE : ((famCap Fam.Expression : Nat) : Int) = 1000000 := by
    norm_num [famCap, famOff, MaxSubnodes]
  have hB : ((famCap Fam.BlocOfCode : Nat) : Int) = 999984 := by
    norm_num [famCap, famOff, MaxSubnodes]
  have hA : ((famCap Fam.AssignStmt : Nat) : Int) = 999952 := by
    norm_num [famCap, famOff, MaxSubnodes]
  have hT : ((famCap Fam.ToplevFunc : Nat) : Int) = 999968 := by
    norm_num [famCap, famOff, MaxSubnodes]
  have hC : ((famCap Fam.ClosureExp : Nat) : Int) = 999936 := by
    norm_num [famCap, famOff, MaxSubnodes]
  have hCn : famCap Fam.ClosureExp = 999936 := by
    norm_num [famCap, famOff, MaxSubnodes]
  refine ⟨?_, ?_, ?_, ?_, ?_, ?_, ?_, ?_, ?_, ?_, ?_, ?_⟩
  · intro kind elems h1 h2
    have he : ExpressionNode kind elems =
        some (.node .Expression (kind + 1) (elems + 38)) := by
      unfold ExpressionNode
      rw [hW _ h2, hInt _ h2]
      rw [if_pos (by rw [hE]; push_cast; omega)]
      simp only [Option.some.injEq, Val.node.injEq]
      exact ⟨trivial, by omega, by omega⟩
    refine ⟨he, ?_, ?_, ?_⟩ <;> rw [he] <;> simp [Which, gNil, headFam, gLen, gCap]
  · intro kind helems h1 h2
    have hh : helems ≤ 1000000 := by omega
    have he : BlocOfCodeNode kind helems =
        some (.node .BlocOfCode (kind + 1) (helems + 13)) := by
      unfold BlocOfCodeNode
      rw [hInt _ hh]
      rw [if_pos (by rw [hB]; push_cast; omega)]
      simp only [Option.some.injEq, Val.node.injEq]
      exact ⟨trivial, by omega, by omega⟩
    refine ⟨he, ?_, ?_, ?_⟩ <;> rw [he] <;> simp [Which, gNil, headFam, gLen, gCap]
  · intro kind elems h1 h2
    have h2' : elems + 19 ≤ 1000000 := by omega
    have he : AssignStmtNode kind elems =
        some (.node .AssignStmt (kind + 1) (elems + 19)) := by
      unfold AssignStmtNode
      rw [hW _ h2', hInt _ h2']
      rw [if_pos (by rw [hA]; push_cast; omega)]
      simp only [Option.some.injEq, Val.node.injEq]
      exact ⟨trivial, by omega, by omega⟩
    refine ⟨he, ?_, ?_, ?_⟩ <;> rw [he] <;> simp [Which, gNil, headFam, gLen, gCap]
  · intro recv argc h1
    have ha : argc ≤ 1000000 := by omega
    have he : ToplevFuncNode recv argc =
        some (.node .ToplevFunc ((if recv then 1 else 0) + 1)
          (argc + (if recv then 1 else 0) + 1)) := by
      unfold ToplevFuncNode
      cases recv <;> simp only [Bool.false_eq_true, reduceIte] <;>
        rw [hInt _ ha] <;> split
      case isTrue h =>
        simp only [Option.some.injEq, Val.node.injEq]
        exact ⟨trivial, by omega, by omega⟩
      case isFalse h =>
        exfalso
        rw [hT] at h
        push_cast at h
        simp only [true_and] at h
        omega
      case isTrue h =>
        simp only [Option.some.injEq, Val.node.injEq]
        exact ⟨trivial, by omega, by omega⟩
      case isFalse h =>
        exfalso
        rw [hT] at h
        push_cast at h
        simp only [true_and] at h
        omega
    refine ⟨he, ?_, ?_⟩ <;> rw [he] <;> cases recv <;>
      simp [Which, gNil, headFam, gLen, gCap]
  · intro p h1
    have hp : p ≤ 1000000 := by omega
    have he : ClosureExpNode p = some (.node .ClosureExp (p + 1) 999936) := by
      unfold ClosureExpNode
      rw [hInt _ hp]
      rw [if_pos (by rw [hC]; push_cast; omega)]
      rw [hCn]
      simp only [Option.some.injEq, Val.node.injEq]
      exact ⟨trivial, by omega, trivial⟩
    refine ⟨he, ?_, ?_⟩ <;> rw [he] <;> simp [Which, gNil, headFam, gLen, gCap]
  · intro kind h
    exact namedNode_decode .BranchStmt kind h
  · intro kind h
    exact namedNode_decode .IncDecStmt kind h
  · intro kind h
    exact namedNode_decode .GoDferStmt kind h
  · intro kind h
    exact namedNode_decode .LblGotoCnt kind h
  · intro kind h
    exact namedNode_decode .VarDefStmt kind h
  · intro kind h
    exact namedNode_decode .TypDefStmt kind h
  · intro t ht
    simp [Which, gNil, headFam, ht]

/-- C2 counterexample: a BranchStmt record has cap 10 and len 1, so cap
does not equal len and a branch node is not a two-index slice of its
family buffer at full capacity. -/
theorem branchNode_cap_ne_len :
    BranchStmtNode 0 = some (.node .BranchStmt 1 10) ∧
    gCap (BranchStmtNode 0) ≠ gLen (BranchStmtNode 0) := by
  decide

/-- C10 (amended): the node constructors are partial: they return none
(Go nil) exactly when the slice bounds derived from the wrapped uint64
arithmetic are out of range for the family buffer. -/
theorem constructors_partiality :
    (∀ kind elems : Nat, kind ≤ 255 → elems < W →
      (ExpressionNode kind elems = none ↔
        ¬(kind + 1 ≤ (elems + 38) % W ∧ (elems + 38) % W ≤ 1000000))) ∧
    (∀ kind helems : Nat, kind ≤ 255 → helems < W →
      (BlocOfCodeNode kind helems = none ↔
        ¬(kind + 1 ≤ (helems + 13) % W ∧ (helems + 13) % W ≤ 999984))) ∧
    famOff .Expression = some 0 ∧ famOff .BlocOfCode = some 16 ∧
    famOff .ToplevFunc = some 32 ∧ famOff .AssignStmt = some 48 ∧
    famOff .ClosureExp = some 64 ∧ famOff .IfceMethod = some 80 ∧
    famCap .Expression = 1000000 ∧ famCap .BlocOfCode = 999984 ∧
    MaxSubnodes = 1000000 := by
  have hcapE : famCap Fam.Expression = 1000000 := by
    norm_num [famCap, famOff, MaxSubnodes]
  have hcapB : famCap Fam.BlocOfCode = 999984 := by
    norm_num [famCap, famOff, MaxSubnodes]
  have hWpos : 0 < W := by decide
  have hchar : ∀ x : Nat, x < W →
      ∀ c : Nat, c ≤ 38 → (x + c) % W = (if x + c < W then x + c else x + c - W) := by
    intro x hx c hc
    unfold W at hx ⊢
    split_ifs with h
    · exact Nat.mod_eq_of_lt h
    · rw [Nat.mod_eq_sub_mod (by omega)]
      exact Nat.mod_eq_of_lt (by omega)
  refine ⟨?_, ?_, rfl, rfl, rfl, rfl, rfl, rfl, hcapE, hcapB, rfl⟩
  · intro kind elems hk he
    rw [hchar elems he 38 (by decide)]
    unfold ExpressionNode intOfU64
    rw [hcapE, hchar elems he 38 (by decide)]
    unfold W at he ⊢
    simp only []
    split_ifs <;>
      constructor <;> intro hx <;>
      first
        | rfl
        | exact Option.noConfusion hx
        | exact absurd (by omega) hx
        | exact hx.elim
        | omega
  · intro kind helems hk hh
    rw [hchar helems hh 13 (by decide)]
    unfold BlocOfCodeNode intOfU64
    rw [hcapB]
    unfold W at hh ⊢
    simp only []
    split_ifs <;>
      constructor <;> intro hx <;>
      first
        | rfl
        | exact Option.noConfusion hx
        | exact absurd (by omega) hx
        | exact hx.elim
        | omega

/-- C10 counterexample: a huge element count wraps modulo 2^64 and lands
back in range, so ExpressionNode succeeds although the unwrapped bound
exceeds MaxSubnodes. -/
theorem expressionNode_overflow_no_panic :
    ExpressionNode 0 (W - 37) = some (.node .Expression 1 1) ∧
    ¬ (W - 37) + 38 ≤ 1000000 := by
  constructor
  · decide
  · decide

/-- C4: rendering is a pure function of the store: pointwise equal stores
render identically, and child addressing is total (O never leaves the
uint64 range), so the walk depends on nothing else. -/
theorem render_deterministic :
    (∀ (g1 g2 : Store) (fuel it par : Nat) (out : List String),
      (∀ k, g1 k = g2 k) → Code fuel it par g1 out = Code fuel it par g2 out) ∧
    (∀ n : Nat, O n < W) :=
  ⟨fun g1 g2 fuel it par out h => by rw [show g1 = g2 from funext h], O_lt⟩

theorem render_deterministic_witness :
    Code 1 0 0 stNil [] = Code 1 0 0 stNil [] ∧ O 5 < W :=
  ⟨(render_deterministic).1 stNil stNil 1 0 0 [] (fun _ => rfl),
   (render_deterministic).2 5⟩

/-- C9: a present record with len 0 makes Code panic (the family probe
indexes byte 0 of an empty slice); a present nil payload renders as
nothing and the walk goes on. -/
theorem empty_record_panics :
    (∀ (s : Store) (it par fuel : Nat) (out : List String) (v : Val),
      s it = some (some v) → gLen (some v) = 0 →
      Code (fuel + 1) it par s out = Res.panic) ∧
    (∀ v : Val, gLen (some v) = 0 → Which (some v) = none) ∧
    (∀ (s : Store) (it par fuel : Nat) (out : List String),
      s it = some none → s (O it) = none →
      Code (fuel + 1) it par s out = Res.ok () s out) := by
  refine ⟨?_, ?_, ?_⟩
  · intro s it par fuel out v hv hlen
    have hhf : headFam (some v) = none := by
      cases v with
      | str t =>
          simp only [gLen] at hlen
          simp [headFam, hlen]
      | node f l c =>
          simp only [gLen] at hlen
          simp [headFam, hlen]
    simp [Code, codeIntro, bind_def, pure_def, Mbind, Mpure, mval, mhead,
      mpanic, deref, gNil, hv, hhf, Option.join]
  · intro v hlen
    cases v with
    | str t =>
        simp only [gLen] at hlen
        simp [Which, gNil, headFam, hlen]
    | node f l c =>
        simp only [gLen] at hlen
        simp [Which, gNil, headFam, hlen]
  · intro s it par fuel out h1 h2
    simp +decide [Code, codeIntro, codePost, codeLoop, bind_def, pure_def,
      Mbind, Mpure, mval, mpoke, Poke, mhead, deref, gNil, h1, h2, O_mod]

theorem empty_record_panics_witness :
    Code 1 0 0 stBad [] = Res.panic ∧
    Which (some (.str "")) = none ∧
    Code 1 5 0 stNil [] = Res.ok () stNil [] :=
  ⟨(empty_record_panics).1 stBad 0 0 0 [] (.str "") rfl rfl,
   (empty_record_panics).2.1 (.str "") rfl,
   (empty_record_panics).2.2 stNil 5 0 0 [] rfl rfl⟩

theorem constructors_decode_witness :
    ExpressionNode 24 1 = some (.node .Expression 25 39) ∧
    Which (ExpressionNode 24 1) = some (some .Expression) ∧
    gLen (ExpressionNode 24 1) - 1 = 24 ∧
    gCap (ExpressionNode 24 1) - 38 = 1 :=
  (constructors_decode).1 24 1 (by decide) (by decide)

theorem constructors_partiality_witness :
    (ExpressionNode 0 1000000 = none ↔
      ¬(0 + 1 ≤ (1000000 + 38) % W ∧ (1000000 + 38) % W ≤ 1000000)) ∧
    (BlocOfCodeNode 255 0 = none ↔
      ¬(255 + 1 ≤ (0 + 13) % W ∧ (0 + 13) % W ≤ 999984)) :=
  ⟨(constructors_partiality).1 0 1000000 (by decide) (by decide),
   (constructors_partiality).2.1 255 0 (by decide) (by decide)⟩

/-- C8: Code never mutates the flat store: a completed render pass returns
every key-to-record binding exactly as it was. -/
theorem code_reads_only :
    ∀ (fuel it par : Nat) (s : Store) (out : List String) (r : Unit)
      (s' : Store) (out' : List String),
      Code fuel it par s out = Res.ok r s' out' → ∀ k, s' k = s k :=
  fun fuel it par s out r s' out' h k =>
    congrFun (SP_Code fuel it par s out r s' out' h) k

theorem code_reads_only_witness :
    Code 1 5 0 stNil [] = Res.ok () stNil [] ∧ ∀ k, stNil k = stNil k :=
  ⟨rfl, fun k => code_reads_only 1 5 0 stNil [] () stNil [] rfl k⟩

set_option maxHeartbeats 1600000 in
/-- C3 counterexample: an if/else-if chain head renders its closing brace
and then the else keyword, so the trailing brace is not suppressed. -/
theorem ifelse_brace_not_suppressed :
    CodeOut 6 stIf 0 0 =
      some ["if ", "c", "\x7b", "", "break", "", "\x7d", " else"] := by
  decide

set_option maxHeartbeats 3200000 in
/-- C3 (amended): a BlocOfCode node opens its brace right after the
introducer keyword when it has no header elements, otherwise defers it to
the end of the header run; case and communicate headers end with a colon
instead; after the last child an if-less-than-case variant closes with a
brace, and the if/else-if variant additionally emits a following else
(the brace is printed, not suppressed). -/
theorem bloc_braces (s : Store) (out : List String) (k h : Nat)
    (hk : k ≤ 12) (hh : h ≤ 999971) :
    (h = 0 → introBlocOfCode (blocRec k h) s out =
        .ok () s (out ++ blocKw k ++ (if k < 8 then ["\x7b", ""] else []))) ∧
    (0 < h → introBlocOfCode (blocRec k h) s out =
        .ok () s (out ++ blocKw k)) ∧
    (0 < h → postBlocOfCode (h - 1) (blocRec k h) s out =
        .ok () s (out ++ (if k < 8 then ["\x7b", ""]
          else if k = 8 ∨ k = 11 then [":", ""] else []))) ∧
    (∀ i, i + 1 < h → postBlocOfCode i (blocRec k h) s out =
        .ok () s (out ++ (if k = 8 then [", "] else []))) ∧
    (∀ i, h ≤ i → i ≤ 1000000 → postBlocOfCode i (blocRec k h) s out =
        .ok () s (out ++ [""])) ∧
    (postBlocOfCode uint64big (blocRec k h) s out =
        .ok () s (out ++ (if k < 8 then ["\x7d"] else []) ++
          (if k = 2 then [" else"] else []))) := by
  refine ⟨?_, ?_, ?_, ?_, ?_, ?_⟩
  · intro h0
    subst h0
    interval_cases k <;>
      simp +decide [introBlocOfCode, blocRec, blocKw, byteOfInt, gLen, gCap,
        bind_def, pure_def, Mbind, Mpure, pr,
        BlocOfCodePlain, BlocOfCodeIf, BlocOfCodeIfElse, BlocOfCodeSwitch,
        BlocOfCodeFor, BlocOfCodeForRange, BlocOfCodeTypeSwitch,
        BlocOfCodeSelect, BlocOfCodeCase, BlocOfCodeDefault,
        BlocOfCodeCommunicate, BlocOfCodeCommunicateDefault,
        BlocOfCodeTotalCount]
  · intro hpos
    have hc : ¬ (13 + h = BlocOfCodeTotalCount) := by
      unfold BlocOfCodeTotalCount; omega
    interval_cases k <;>
      simp +decide [introBlocOfCode, blocRec, blocKw, byteOfInt, gLen, gCap,
        bind_def, pure_def, Mbind, Mpure, pr, hc,
        BlocOfCodePlain, BlocOfCodeIf, BlocOfCodeIfElse, BlocOfCodeSwitch,
        BlocOfCodeFor, BlocOfCodeForRange, BlocOfCodeTypeSwitch,
        BlocOfCodeSelect, BlocOfCodeCase, BlocOfCodeDefault,
        BlocOfCodeCommunicate, BlocOfCodeCommunicateDefault,
        BlocOfCodeTotalCount, Nat.pos_iff_ne_zero.mp hpos]
  · intro hpos
    have hne : h - 1 ≠ uint64big := by unfold uint64big W; omega
    have hm : (h - 1 + 13 + 1) % W = 13 + h := by
      unfold W; omega
    interval_cases k <;>
      simp +decide [postBlocOfCode, blocRec, byteOfInt, gLen, gCap,
        bind_def, pure_def, Mbind, Mpure, pr, hne, hm,
        BlocOfCodeIfElse, BlocOfCodeCase, BlocOfCodeCommunicate,
        BlocOfCodeTotalCount]
  · intro i hi
    have hne : i ≠ uint64big := by unfold uint64big W; omega
    have hm : (i + 13 + 1) % W = 14 + i := by
      unfold W; omega
    have hc1 : ¬ (14 + i = 13 + h) := by omega
    have hc2 : ¬ (14 + i > 13 + h) := by omega
    have hc3 : 14 + i < 13 + h := by omega
    interval_cases k <;>
      simp +decide [postBlocOfCode, blocRec, byteOfInt, gLen, gCap,
        bind_def, pure_def, Mbind, Mpure, pr, hne, hm, hc1, hc2, hc3,
        BlocOfCodeIfElse, BlocOfCodeCase, BlocOfCodeCommunicate,
        BlocOfCodeTotalCount]
  · intro i hge hle
    have hne : i ≠ uint64big := by unfold uint64big W; omega
    have hm : (i + 13 + 1) % W = 14 + i := by
      unfold W; omega
    have hc1 : ¬ (14 + i = 13 + h) := by omega
    have hc2 : 14 + i > 13 + h := by omega
    interval_cases k <;>
      simp +decide [postBlocOfCode, blocRec, byteOfInt, gLen, gCap,
        bind_def, pure_def, Mbind, Mpure, pr, hne, hm, hc1, hc2,
        BlocOfCodeIfElse, BlocOfCodeCase, BlocOfCodeCommunicate,
        BlocOfCodeTotalCount]
  · interval_cases k <;>
      simp +decide [postBlocOfCode, blocRec, byteOfInt, gLen, gCap,
        bind_def, pure_def, Mbind, Mpure, pr,
        BlocOfCodeIfElse, BlocOfCodeCase, BlocOfCodeCommunicate,
        BlocOfCodeTotalCount]

theorem bloc_braces_witness :
    (introBlocOfCode (blocRec 1 0) stNil [] =
      .ok () stNil ([] ++ blocKw 1 ++ (if 1 < 8 then ["\x7b", ""] else []))) ∧
    (postBlocOfCode uint64big (blocRec 2 1) stNil [] =
      .ok () stNil ([] ++ (if 2 < 8 then ["\x7d"] else []) ++
        (if 2 = 2 then [" else"] else []))) :=
  ⟨(bloc_braces stNil [] 1 0 (by decide) (by decide)).1 rfl,
   (bloc_braces stNil [] 2 1 (by decide) (by decide)).2.2.2.2.2⟩

set_option maxHeartbeats 4000000 in
/-- C6: rendering a CommentRow node prints the stored text verbatim, with a
preceding blank line exactly when the variant is CommentRowSeparate. -/
theorem commentRow_blank_iff (g : Store) (it par f v c : Nat) (t : String)
    (h1 : g it = some (some (.node .CommentRow (v + 1) c)))
    (h2 : g (O it) = some (some (.str t)))
    (ht : t.length ≠ 0)
    (h3 : g ((O it + 1) % W) = none)
    (h4 : g (O (O it)) = none) :
    CodeOut (f + 3) g it par = some ((if v = 2 then [""] else []) ++ [t]) := by
  by_cases hv : v = 2
  · subst hv
    simp +decide [CodeOut, Code, codeLoop, codeIntro, codePost, introCommentRow,
      bind_def, pure_def, Mbind, Mpure, mval, mpoke, pr, mhead, mWhich, mpanic,
      deref, Poke, gNil, gLen, gCap, gStr, headFam, Which, h1, h2, h3, h4, ht,
      O_mod, Nat.pos_iff_ne_zero, CommentRowSeparate]
  · have hvi : ¬((v : Int) = 2) := by exact_mod_cast hv
    simp +decide [CodeOut, Code, codeLoop, codeIntro, codePost, introCommentRow,
      bind_def, pure_def, Mbind, Mpure, mval, mpoke, pr, mhead, mWhich, mpanic,
      deref, Poke, gNil, gLen, gCap, gStr, headFam, Which, h1, h2, h3, h4, ht,
      O_mod, Nat.pos_iff_ne_zero, hv, hvi, CommentRowSeparate]

theorem commentRow_blank_iff_witness :
    CodeOut 3 stC 11 0 = some ((if 2 = 2 then [""] else []) ++ ["// hi"]) :=
  commentRow_blank_iff stC 11 0 0 2 10 "// hi" rfl rfl (by decide) rfl rfl

theorem Code_renders_run_witness :
    Code 3 7 0 stRun [] =
      Mbind (codeIntro 7 0 (gStr (deref stRun (O 7))))
        (fun x => runWalk (Code 2) 7 0 (gStr (deref stRun (O 7))) 0 2) stRun [] :=
  Code_renders_run 2 7 0 stRun [] 2
    (by intro j hj; interval_cases j <;> decide)
    (by decide) (by decide) (by decide)

set_option maxHeartbeats 4000000 in
set_option maxRecDepth 4000 in
/-- C7 (amended): minimal expression forms: a call node with only the callee
child renders the callee followed by the empty pair; a composite node with
only a type child renders the type followed by an empty brace pair; a
key-value element renders key, a bare colon (no following space), value. -/
theorem expr_minimal_forms (f p : Nat) :
    (∀ (g : Store) (a : Nat) (t : String),
      g a = some (some (.node .Expression 25 39)) →
      g (O a) = some (some (.str t)) → t.length ≠ 0 →
      g ((O a + 1) % W) = none → g (O (O a)) = none →
      g ((O a + uint64big) % W) = none →
      CodeOut (f + 3) g a p = some [t, "()"]) ∧
    (∀ (g : Store) (a : Nat) (t : String),
      g a = some (some (.node .Expression 24 39)) →
      g (O a) = some (some (.str t)) → t.length ≠ 0 →
      g ((O a + 1) % W) = none → g (O (O a)) = none →
      g ((O a + uint64big) % W) = none →
      CodeOut (f + 3) g a p = some [t, "\x7b\x7d"]) ∧
    (∀ (g : Store) (a : Nat) (t u : String),
      g a = some (some (.node .Expression 29 40)) →
      g (O a) = some (some (.str t)) → t.length ≠ 0 →
      g ((O a + 1) % W) = some (some (.str u)) → u.length ≠ 0 →
      g ((O a + 2) % W) = none →
      g (O (O a)) = none → g (O ((O a + 1) % W)) = none →
      g ((O a + uint64big) % W) = none →
      CodeOut (f + 3) g a p = some [t, ":", u]) := by
  refine ⟨?_, ?_, ?_⟩
  · intro g a t h1 h2 ht h3 h4 h5
    simp +decide [CodeOut, Code, codeLoop, codeIntro, codePost, bind_def,
      pure_def, Mbind, Mpure, mval, mpoke, pr, mhead, mWhich, misFam,
      misNotFam, mnilOrFam, mnilOrNotFam, mpanic, deref, Poke, gNil, gLen,
      gCap, gStr, headFam, Which, introExpression, postExpression,
      postExprSepMid, postExprSepOne, postExprSepEnd, famText, h1, h2, h3, h4, h5, ht, O_mod,
      Nat.pos_iff_ne_zero, byteOfInt, u64OfInt, intOfU64,
      ExpressionTotalCount, ExpressionCall, ExpressionDot,
      ExpressionCallDotDotDot, ExpressionBrackets, ExpressionComposed,
      ExpressionComposite, ExpressionType, ExpressionIndex, ExpressionSlice,
      ExpressionMap, ExpressionSliceType, ExpressionArrayType]
  · intro g a t h1 h2 ht h3 h4 h5
    simp +decide [CodeOut, Code, codeLoop, codeIntro, codePost, bind_def,
      pure_def, Mbind, Mpure, mval, mpoke, pr, mhead, mWhich, misFam,
      misNotFam, mnilOrFam, mnilOrNotFam, mpanic, deref, Poke, gNil, gLen,
      gCap, gStr, headFam, Which, introExpression, postExpression,
      postExprSepMid, postExprSepOne, postExprSepEnd, famText, h1, h2, h3, h4, h5, ht, O_mod,
      Nat.pos_iff_ne_zero, byteOfInt, u64OfInt, intOfU64,
      ExpressionTotalCount, ExpressionCall, ExpressionDot,
      ExpressionCallDotDotDot, ExpressionBrackets, ExpressionComposed,
      ExpressionComposite, ExpressionType, ExpressionIndex, ExpressionSlice,
      ExpressionMap, ExpressionSliceType, ExpressionArrayType]
  · intro g a t u h1 h2 ht h2u htu h3 h4 h4u h5
    simp +decide [CodeOut, Code, codeLoop, codeIntro, codePost, bind_def,
      pure_def, Mbind, Mpure, mval, mpoke, pr, mhead, mWhich, misFam,
      misNotFam, mnilOrFam, mnilOrNotFam, mpanic, deref, Poke, gNil, gLen,
      gCap, gStr, headFam, Which, introExpression, postExpression,
      postExprSepMid, postExprSepOne, postExprSepEnd, famText, h1, h2, h3, h4, h5, ht, h2u, htu, h4u,
      O_mod, Nat.pos_iff_ne_zero, byteOfInt, u64OfInt, intOfU64,
      ExpressionTotalCount, ExpressionCall, ExpressionDot,
      ExpressionCallDotDotDot, ExpressionBrackets, ExpressionComposed,
      ExpressionComposite, ExpressionType, ExpressionIndex, ExpressionSlice,
      ExpressionMap, ExpressionSliceType, ExpressionArrayType,
      ExpressionKeyVal]

theorem expr_minimal_forms_witness :
    CodeOut 3 stCall 3 0 = some ["f", "()"] ∧
    CodeOut 3 stCompT 3 0 = some ["T", "\x7b\x7d"] ∧
    CodeOut 3 stKV 3 0 = some ["k1", ":", "v1"] :=
  ⟨(expr_minimal_forms 0 0).1 stCall 3 "f" rfl rfl (by decide) rfl rfl rfl,
   (expr_minimal_forms 0 0).2.1 stCompT 3 "T" rfl rfl (by decide) rfl rfl
     rfl,
   (expr_minimal_forms 0 0).2.2 stKV 3 "k1" "v1" rfl rfl (by decide) rfl
     (by decide) rfl rfl rfl rfl⟩

set_option maxHeartbeats 1600000 in
/-- C7 counterexample: a three-element keyed composite literal renders with
no space after each colon, not in the documented colon-space form. -/
theorem keyval_colon_no_space :
    emitStr ((CodeOut 5 stComp 0 0).getD []) =
      "T\x7bk1:v1, k2:v2, k3:v3\x7d" ∧
    emitStr ((CodeOut 5 stComp 0 0).getD []) ≠
      "T\x7bk1: v1, k2: v2, k3: v3\x7d" := by
  decide

theorem lwAt_succ (file : List Nat) (i : Nat) :
    lwAt file (i + 1) = if file.getD i 0 = 10 then true
      else if 32 < file.getD i 0 then false else lwAt file i := rfl

theorem clAt_succ (file : List Nat) (i : Nat) :
    clAt file (i + 1) = if file.getD i 0 = 10 then lwAt file i || clAt file i
      else if 32 < file.getD i 0 then false else clAt file i := rfl

theorem seAt_succ (file : List Nat) (i : Nat) :
    seAt file (i + 1) = if file.getD i 0 = 10 then false
      else seAt file i ||
        ((file.getD i 0 == 47) &&
          ((file.getD (i + 1) 0 == 47) || (file.getD (i + 1) 0 == 42)) &&
          !lwAt file i && !seAt file i) := rfl

theorem lcAux_spec (file : List Nat) : ∀ (l : List Nat) (i : Nat)
    (en sp : List Nat), file.drop i = l →
    lcAux i (lwAt file i) (clAt file i) (seAt file i) en sp l =
      (en ++ (List.range' i (file.length - 1 - i)).filterMap
         (fun j => if enHit file j then some ((j + 1) / 2) else none),
       sp ++ (List.range' i (file.length - 1 - i)).filterMap
         (fun j => if spHit file j then some ((j + 1) / 2) else none)) := by
  intro l
  induction l with
  | nil =>
    intro i en sp h
    have hlen := congrArg List.length h
    rw [List.length_drop] at hlen
    simp only [List.length_nil] at hlen
    have h0 : file.length - 1 - i = 0 := by omega
    simp [lcAux, h0]
  | cons c l' ih =>
    cases l' with
    | nil =>
      intro i en sp h
      have hlen := congrArg List.length h
      rw [List.length_drop] at hlen
      simp only [List.length_cons, List.length_nil] at hlen
      have h0 : file.length - 1 - i = 0 := by omega
      simp [lcAux, h0]
    | cons d rest =>
      intro i en sp h
      have hlen := congrArg List.length h
      rw [List.length_drop] at hlen
      simp only [List.length_cons] at hlen
      have h2 : file.length - 1 - i = rest.length + 1 := by omega
      have h3 : file.length - 1 - (i + 1) = rest.length := by omega
      have hg0 := List.getElem?_drop file i 0
      rw [h] at hg0
      simp only [Nat.add_zero] at hg0
      have hc : file.getD i 0 = c := by
        rw [List.getD_eq_getElem?_getD, ← hg0]
        simp
      have hg1 := List.getElem?_drop file i 1
      rw [h] at hg1
      have hd : file.getD (i + 1) 0 = d := by
        rw [List.getD_eq_getElem?_getD, ← hg1]
        simp
      have hdrop : file.drop (i + 1) = d :: rest := by
        rw [← List.tail_drop, h]
        rfl
      by_cases hc10 : c = 10
      · subst hc10
        have hlw : lwAt file (i + 1) = true := by
          simp only [lwAt, hc]
          simp
        have hcl : clAt file (i + 1) = (lwAt file i || clAt file i) := by
          simp only [clAt, hc]
          simp
        have hse : seAt file (i + 1) = false := by
          simp only [seAt, hc]
          simp
        have hEn : enHit file i = false := by
          simp only [enHit, hc]
          simp
        have hSp : spHit file i = false := by
          simp only [spHit, hc]
          simp
        have hstep := ih (i + 1) en sp hdrop
        rw [hlw, hcl, hse, h3] at hstep
        rw [h2, List.range'_succ]
        simp only [lcAux, List.filterMap_cons, hEn, hSp, if_neg Bool.false_ne_true]
        simpa using hstep
      · have hlw : lwAt file (i + 1) = (if 32 < c then false else lwAt file i) := by
          rw [lwAt_succ, hc, if_neg hc10]
        have hcl : clAt file (i + 1) = (if 32 < c then false else clAt file i) := by
          rw [clAt_succ, hc, if_neg hc10]
        have hse : seAt file (i + 1) =
            (seAt file i || ((c == 47) && ((d == 47) || (d == 42)) &&
              !lwAt file i && !seAt file i)) := by
          rw [seAt_succ, hc, hd, if_neg hc10]
        have hEn : enHit file i = ((c == 47) && ((d == 47) || (d == 42)) &&
            !lwAt file i && !seAt file i) := by
          simp only [enHit, hc, hd]
        have hSp : spHit file i = (((c == 47) && ((d == 47) || (d == 42)) ||
            (c == 112) && (d == 97)) && clAt file i) := by
          simp only [spHit, hc, hd]
        have hclstep : (if 32 < c then false
              else if ((c == 47) && ((d == 47) || (d == 42)) ||
                (c == 112) && (d == 97)) && clAt file i then false
              else clAt file i) = clAt file (i + 1) := by
          rw [hcl]
          by_cases h32 : 32 < c
          · simp [h32]
          · have h47 : (c == 47) = false := by
              simp only [beq_eq_false_iff_ne]
              omega
            have h112 : (c == 112) = false := by
              simp only [beq_eq_false_iff_ne]
              omega
            simp [h32, h47, h112]
        have hstep := ih (i + 1)
          (if enHit file i then en ++ [(i + 1) / 2] else en)
          (if spHit file i then sp ++ [(i + 1) / 2] else sp) hdrop
        rw [h3] at hstep
        rw [h2, List.range'_succ]
        simp only [lcAux, if_neg hc10]
        rw [← hlw, hclstep, ← hse, ← hEn, ← hSp, hstep]
        by_cases hE : enHit file i = true <;> by_cases hS : spHit file i = true <;>
          simp [hE, hS, List.filterMap_cons, List.append_assoc]

/-- C5 (amended): LookupComments records exactly the marker positions the
prefix state machine selects: position i goes to the ender list when a
marker starts there with the whitespace flag off (true at position 0 even
with nothing before it) and no marker yet recorded on the line, and to the
separ list when a marker or the package-keyword pair starts there with the
cleanline flag on; each recorded as (i+1)/2, in increasing position order. -/
theorem LookupComments_spec (file : List Nat) :
    LookupComments file =
      ((List.range' 0 (file.length - 1)).filterMap
         (fun j => if enHit file j then some ((j + 1) / 2) else none),
       (List.range' 0 (file.length - 1)).filterMap
         (fun j => if spHit file j then some ((j + 1) / 2) else none)) := by
  have h := lcAux_spec file file 0 [] [] (by simp)
  simpa [LookupComments, lwAt, clAt, seAt] using h

/-- C5 counterexample: in the file "//x" the marker at position 0 has no
non-whitespace content before it on its line, yet LookupComments records it
in the ender set. -/
theorem lookup_position0_ender :
    LookupComments [47, 47, 120] = ([0], []) ∧
    (∀ j, ¬(j < 0 ∧ 32 < ([47, 47, 120] : List Nat).getD j 0)) :=
  ⟨by decide, fun j hj => (Nat.not_lt_zero j hj.1).elim⟩
